import Mathlib

/-!
# OpenDUNE: the ALSA sound driver and the GUI text queue

A shallow embedding of `src/audio/dsp_alsa.c` and of `GUI_DisplayText`
from `src/gui/gui.c`, followed by the properties established for them.

Conventions of the embedding

* The file-scope statics of `dsp_alsa.c` become the fields of `Dsp.State`;
  every C function takes the state and returns the new one.
* The ALSA library is the environment.  What a library call returns is an
  argument of the operation that makes the call (`PlayDev`, `StatusDev`,
  `CallbackDev`); the calls an operation makes are returned as a list of
  `Call`s in program order.
* `uint32` values are naturals below `2^32`; `snd_pcm_sframes_t` and `int`
  results of the library are integers, converted by `toU32` where the C code
  stores them in a `uint32` (LP64: `long` is 64 bits wide, pointers do not
  wrap at `2^32`).
* A failing `assert` aborts: `DSP_GetStatus` returns `none` there.
* `realloc` is taken to succeed.
-/

namespace OpenDUNE

namespace Dsp

/-! ## Machine arithmetic and memory -/

/-- The memory behind a `const uint8 *p`: `p i` is what is stored at `p + i`. -/
abbrev Mem := Nat → Nat

/-- Read of one `uint8` at `p[i]`. -/
def rd (p : Mem) (i : Nat) : Nat := p i % 256

/-- Conversion of a signed library result to `uint32`. -/
def toU32 (r : Int) : Nat := (r % 4294967296).toNat

/-- Conversion `(int)x` of a `uint32`. -/
def toI32 (x : Nat) : Int :=
  if x % 4294967296 < 2147483648 then (x % 4294967296 : Nat) else ((x % 4294967296 : Nat) : Int) - 4294967296

/-- Subtraction `a - b` in `uint32`. -/
def sub32 (a b : Nat) : Nat := (a % 4294967296 + 4294967296 - b % 4294967296) % 4294967296

/-- Modelled from the spec: the macro `READ_LE_UINT16` of `os/endian.h`, which is
not among the source files; a little-endian 16-bit read at `p + off`. -/
def READ_LE_UINT16 (p : Mem) (off : Nat) : Nat := rd p off + 256 * rd p (off + 1)

/-- Modelled from the spec: the macro `READ_LE_UINT32` of `os/endian.h`, which is
not among the source files; a little-endian 32-bit read at `p + off`. -/
def READ_LE_UINT32 (p : Mem) (off : Nat) : Nat :=
  rd p off + 256 * rd p (off + 1) + 65536 * rd p (off + 2) + 16777216 * rd p (off + 3)

/-- The value of `SND_PCM_STATE_RUNNING` in `alsa/pcm.h`. -/
def SND_PCM_STATE_RUNNING : Nat := 3

/-- The library call `realloc(old, n)`: the first `min n old.length` bytes are kept, the new
tail is indeterminate (zero here; `DSP_Play` overwrites all of it at once). -/
def realloc (old : List Nat) (n : Nat) : List Nat :=
  old.take n ++ List.replicate (n - old.length) 0

/-- The library call `memcpy(dst, src, n)` into the start of the block `dst`. -/
def memcpy (dst : List Nat) (src : Mem) (n : Nat) : List Nat :=
  (List.range n).map (fun i => rd src i) ++ dst.drop n

/-! ## State, environment and observable calls -/

/-- The file-scope statics.  `s_dsp` and `s_dspAsync` are `none` for `NULL`.
`s_data` is the content of the allocated block (`[]` for `NULL`), `s_buffer`
is the cursor as an offset from the start of that block. -/
structure State where
  s_dsp : Option Nat
  s_dspAsync : Option Nat
  s_init : Bool
  s_playing : Bool
  s_data : List Nat
  s_dataLen : Nat
  s_buffer : Nat
  s_bufferLen : Nat
  s_bufferDone : Nat
  deriving DecidableEq, Repr

/-- The initial values of the statics. -/
def State.initial : State :=
  { s_dsp := none, s_dspAsync := none, s_init := false, s_playing := false,
    s_data := [], s_dataLen := 0, s_buffer := 0, s_bufferLen := 0, s_bufferDone := 0 }

/-- The messages handed to `Warning` and `Error`. -/
inductive Diag
  | unsupportedCodec (codec : Nat)
  | initFailed
  | anyFailed
  | channelsFailed
  | rateFailed
  | paramsFailed
  | asyncUnsupported (avail : Int)
  deriving DecidableEq, Repr

/-- A call that leaves `dsp_alsa.c`, with the arguments that matter. -/
inductive Call
  | snd_pcm_open (ret : Int) (pcm : Nat)
  | snd_pcm_drop (pcm : Option Nat)
  | snd_pcm_close (pcm : Option Nat)
  | snd_pcm_hw_params_any (pcm : Option Nat)
  | snd_pcm_hw_params_set_access (pcm : Option Nat)
  | snd_pcm_hw_params_set_format (pcm : Option Nat)
  | snd_pcm_hw_params_set_channels (pcm : Option Nat) (val : Nat)
  | snd_pcm_hw_params_set_rate (pcm : Option Nat) (val : Nat)
  | snd_pcm_hw_params (pcm : Option Nat)
  | snd_async_add_pcm_handler (pcm : Option Nat)
  | snd_pcm_avail (pcm : Option Nat)
  | snd_pcm_avail_update (pcm : Option Nat)
  | snd_pcm_writei (pcm : Option Nat) (offset : Nat) (size : Nat)
  | snd_pcm_state (pcm : Option Nat)
  | free
  | Warning (w : Diag)
  | Error (e : Diag)
  deriving DecidableEq, Repr

/-- What the library answers during one `DSP_Play`. -/
structure PlayDev where
  open_ret : Int
  open_pcm : Nat
  any_ret : Int
  channels_ret : Int
  rate_ret : Int
  params_ret : Int
  async_ret : Int
  async_handler : Nat
  avail_ret : Int
  writei_ret : Int
  deriving DecidableEq, Repr

/-- What the library answers during one `DSP_GetStatus`. -/
structure StatusDev where
  state_ret : Nat
  avail_ret : Int
  deriving DecidableEq, Repr

/-- What the library answers during one `DSP_Callback`. -/
structure CallbackDev where
  avail_update_ret : Int
  deriving DecidableEq, Repr

/-- New state and the calls made, in order. -/
structure Out where
  st : State
  calls : List Call
  deriving DecidableEq, Repr

/-- Result of a `DSP_GetStatus` that returns. -/
structure StatusOut where
  st : State
  calls : List Call
  ret : Nat
  deriving DecidableEq, Repr

/-! ## The functions of `dsp_alsa.c` -/

/-- The function `static void DSP_Callback(snd_async_handler_t *ahandler)`. -/
def DSP_Callback (s : State) (dev : CallbackDev) : Out :=
  if s.s_playing = false then ⟨s, []⟩ else
  let len := toU32 dev.avail_update_ret
  if len = 0 then ⟨s, [Call.snd_pcm_avail_update s.s_dsp]⟩ else
  let len := if len > s.s_bufferLen then s.s_bufferLen else len
  if len = 0 then ⟨s, [Call.snd_pcm_avail_update s.s_dsp]⟩ else
  ⟨{ s with s_buffer := s.s_buffer + len, s_bufferLen := sub32 s.s_bufferLen len },
   [Call.snd_pcm_avail_update s.s_dsp, Call.snd_pcm_writei s.s_dsp s.s_buffer len]⟩

/-- The function `void DSP_Stop(void)`. -/
def DSP_Stop (s : State) : Out :=
  if s.s_dsp = none then ⟨s, []⟩ else
  ⟨{ s with s_dsp := none, s_playing := false },
   [Call.snd_pcm_drop s.s_dsp, Call.snd_pcm_close s.s_dsp]⟩

/-- The function `void DSP_Uninit(void)`. -/
def DSP_Uninit (s : State) : Out :=
  if s.s_init = false then ⟨s, []⟩ else
  let o := DSP_Stop s
  ⟨{ o.st with s_data := [], s_dataLen := 0, s_init := false }, o.calls ++ [Call.free]⟩

/-- The function `bool DSP_Init(void)`. -/
def DSP_Init (s : State) : State × Bool :=
  ({ s with s_init := true }, true)

/-- The function `void DSP_Play(const uint8 *data)`.  After the `DSP_Stop` the statics the
function assigns are carried as locals of the same name and written back
where the function returns. -/
def DSP_Play (s : State) (data : Mem) (dev : PlayDev) : Out :=
  let o := DSP_Stop s
  let hdr := READ_LE_UINT16 data 20
  if rd data hdr ≠ 1 then o else
  let len := sub32 (READ_LE_UINT32 data hdr / 256) 2
  let blk := hdr + 4
  let s_data := if o.st.s_dataLen < len then realloc o.st.s_data len else o.st.s_data
  let s_dataLen := if o.st.s_dataLen < len then len else o.st.s_dataLen
  let s_data := memcpy s_data (fun i => data (blk + 2 + i)) len
  let freq := 1000000 / (256 - rd data blk)
  let c := o.calls ++
    (if rd data (blk + 1) ≠ 0 then [Call.Warning (Diag.unsupportedCodec (rd data (blk + 1)))] else [])
  let c := c ++ [Call.snd_pcm_open dev.open_ret dev.open_pcm]
  if dev.open_ret < 0 then
    ⟨{ o.st with s_data := s_data, s_dataLen := s_dataLen, s_dsp := none },
     c ++ [Call.Error Diag.initFailed]⟩ else
  let s_dsp := some dev.open_pcm
  let c := c ++ [Call.snd_pcm_hw_params_any s_dsp] ++
    (if dev.any_ret < 0 then [Call.Warning Diag.anyFailed] else [])
  let c := c ++ [Call.snd_pcm_hw_params_set_access s_dsp, Call.snd_pcm_hw_params_set_format s_dsp]
  let c := c ++ [Call.snd_pcm_hw_params_set_channels s_dsp 1] ++
    (if dev.channels_ret < 0 then [Call.Warning Diag.channelsFailed] else [])
  let c := c ++ [Call.snd_pcm_hw_params_set_rate s_dsp freq] ++
    (if dev.rate_ret < 0 then [Call.Warning Diag.rateFailed] else [])
  let c := c ++ [Call.snd_pcm_hw_params s_dsp]
  if dev.params_ret < 0 then
    ⟨{ o.st with s_data := s_data, s_dataLen := s_dataLen, s_dsp := none },
     c ++ [Call.Error Diag.paramsFailed, Call.snd_pcm_close s_dsp]⟩ else
  let s_bufferLen := len
  let s_buffer := 0
  let c := c ++ [Call.snd_async_add_pcm_handler s_dsp]
  let s_dspAsync := if dev.async_ret ≥ 0 then some dev.async_handler else o.st.s_dspAsync
  let s_bufferDone := if dev.async_ret ≥ 0 then 0 else toU32 dev.avail_ret
  let c := c ++ (if dev.async_ret ≥ 0 then [] else
    [Call.snd_pcm_avail s_dsp, Call.Warning (Diag.asyncUnsupported (toI32 s_bufferDone))])
  let c := c ++ [Call.snd_pcm_writei s_dsp s_buffer s_bufferLen]
  let len := toU32 dev.writei_ret
  ⟨{ o.st with s_data := s_data, s_dataLen := s_dataLen, s_dsp := s_dsp, s_dspAsync := s_dspAsync,
               s_bufferDone := s_bufferDone, s_buffer := s_buffer + len,
               s_bufferLen := sub32 s_bufferLen len, s_playing := true }, c⟩

/-- The function `uint8 DSP_GetStatus(void)`; `none` when an `assert` fails. -/
def DSP_GetStatus (s : State) (dev : StatusDev) : Option StatusOut :=
  if s.s_playing = false then some ⟨s, [], 0⟩ else
  if dev.state_ret ≠ SND_PCM_STATE_RUNNING then
    if s.s_bufferLen ≠ 0 then none else
    some ⟨{ s with s_playing := false }, [Call.snd_pcm_state s.s_dsp], 0⟩
  else
  if s.s_bufferDone ≠ 0 ∧ dev.avail_ret = ((sub32 s.s_bufferDone 1 : Nat) : Int) then
    if s.s_bufferLen ≠ 0 then none else
    some ⟨{ s with s_playing := false }, [Call.snd_pcm_state s.s_dsp, Call.snd_pcm_avail s.s_dsp], 0⟩
  else
  some ⟨s, Call.snd_pcm_state s.s_dsp ::
          (if s.s_bufferDone ≠ 0 then [Call.snd_pcm_avail s.s_dsp] else []), 2⟩

/-- The `len` that `DSP_Play` computes from the block size field. -/
def blockLen (data : Mem) : Nat := sub32 (READ_LE_UINT32 data (READ_LE_UINT16 data 20) / 256) 2

/-- The content of `s_data` after the `realloc` and `memcpy` of `DSP_Play`. -/
def decodedData (s : State) (data : Mem) : List Nat :=
  memcpy (if s.s_dataLen < blockLen data then realloc s.s_data (blockLen data) else s.s_data)
    (fun i => data (READ_LE_UINT16 data 20 + 4 + 2 + i)) (blockLen data)

/-- The calls of `DSP_Play` for the codec byte. -/
def codecCalls (data : Mem) : List Call :=
  if rd data (READ_LE_UINT16 data 20 + 4 + 1) ≠ 0
  then [Call.Warning (Diag.unsupportedCodec (rd data (READ_LE_UINT16 data 20 + 4 + 1)))] else []

/-- The calls of `DSP_Play` from `snd_pcm_hw_params_any` to `snd_pcm_hw_params`. -/
def paramCalls (data : Mem) (dev : PlayDev) : List Call :=
  [Call.snd_pcm_hw_params_any (some dev.open_pcm)] ++
  (if dev.any_ret < 0 then [Call.Warning Diag.anyFailed] else []) ++
  [Call.snd_pcm_hw_params_set_access (some dev.open_pcm),
   Call.snd_pcm_hw_params_set_format (some dev.open_pcm),
   Call.snd_pcm_hw_params_set_channels (some dev.open_pcm) 1] ++
  (if dev.channels_ret < 0 then [Call.Warning Diag.channelsFailed] else []) ++
  [Call.snd_pcm_hw_params_set_rate (some dev.open_pcm)
    (1000000 / (256 - rd data (READ_LE_UINT16 data 20 + 4)))] ++
  (if dev.rate_ret < 0 then [Call.Warning Diag.rateFailed] else []) ++
  [Call.snd_pcm_hw_params (some dev.open_pcm)]

/-- The calls of `DSP_Play` once the parameters are committed. -/
def startCalls (data : Mem) (dev : PlayDev) : List Call :=
  [Call.snd_async_add_pcm_handler (some dev.open_pcm)] ++
  (if dev.async_ret ≥ 0 then [] else
    [Call.snd_pcm_avail (some dev.open_pcm),
     Call.Warning (Diag.asyncUnsupported
       (toI32 (if dev.async_ret ≥ 0 then 0 else toU32 dev.avail_ret)))]) ++
  [Call.snd_pcm_writei (some dev.open_pcm) 0 (blockLen data)]

/-! ## Runs of the driver -/

/-- One call into the driver, with what the library answers during it.  The
asynchronous handler `DSP_Callback` is taken to run between two calls. -/
inductive Op
  | init
  | play (data : Mem) (dev : PlayDev)
  | getStatus (dev : StatusDev)
  | stop
  | uninit
  | callback (dev : CallbackDev)

/-- The driver together with the record of every call it has made so far. -/
structure Sys where
  st : State
  log : List Call
  deriving DecidableEq, Repr

/-- The program at start-up. -/
def Sys.initial : Sys := ⟨State.initial, []⟩

/-- One operation; `none` when an `assert` aborts the program. -/
def step (y : Sys) : Op → Option Sys
  | Op.init => some ⟨(DSP_Init y.st).1, y.log⟩
  | Op.play data dev => some ⟨(DSP_Play y.st data dev).st, y.log ++ (DSP_Play y.st data dev).calls⟩
  | Op.getStatus dev =>
    match DSP_GetStatus y.st dev with
    | none => none
    | some o => some ⟨o.st, y.log ++ o.calls⟩
  | Op.stop => some ⟨(DSP_Stop y.st).st, y.log ++ (DSP_Stop y.st).calls⟩
  | Op.uninit => some ⟨(DSP_Uninit y.st).st, y.log ++ (DSP_Uninit y.st).calls⟩
  | Op.callback dev => some ⟨(DSP_Callback y.st dev).st, y.log ++ (DSP_Callback y.st dev).calls⟩

/-- A sequence of operations, first to last. -/
def run (y : Sys) : List Op → Option Sys
  | [] => some y
  | op :: ops =>
    match step y op with
    | none => none
    | some y' => run y' ops

/-- The states the program can be in between two operations. -/
def Reachable (y : Sys) : Prop := ∃ ops, run Sys.initial ops = some y

/-- Effect of one call on the handles that are opened and not yet closed. -/
def trackHandle (live : List Nat) : Call → List Nat
  | Call.snd_pcm_open ret pcm => if ret < 0 then live else pcm :: live
  | Call.snd_pcm_close (some pcm) => live.erase pcm
  | _ => live

/-- The device handles opened and not yet closed after the calls of `log`. -/
def openHandles (log : List Call) : List Nat := log.foldl trackHandle []

/-- Whether at most one handle is open before, between and after the calls
`cs`, started with the handles `live` open. -/
def atMostOne (live : List Nat) : List Call → Bool
  | [] => decide (live.length ≤ 1)
  | c :: cs => decide (live.length ≤ 1) && atMostOne (trackHandle live c) cs

/-- What holds of the program between two operations. -/
def Inv (y : Sys) : Prop :=
  (y.st.s_playing = true → y.st.s_dsp ≠ none)
  ∧ y.st.s_bufferDone < 4294967296
  ∧ openHandles y.log = y.st.s_dsp.toList
  ∧ atMostOne [] y.log = true

/-- Whether a call writes samples to the device. -/
def Call.isWrite : Call → Bool
  | Call.snd_pcm_writei _ _ _ => true
  | _ => false

/-- Whether a call opens a device. -/
def Call.isOpen : Call → Bool
  | Call.snd_pcm_open _ _ => true
  | _ => false

/-! ### The session as the specification tells it -/

/-- A `DSP_Play` succeeds when the first block is sound data, the device opens
and the parameters are committed. -/
def playSucceeds (data : Mem) (dev : PlayDev) : Bool :=
  decide (rd data (READ_LE_UINT16 data 20) = 1) && decide (0 ≤ dev.open_ret) && decide (0 ≤ dev.params_ret)

/-- Whether `DSP_GetStatus` returns 0 in state `s`. -/
def statusIsZero (s : State) (dev : StatusDev) : Bool :=
  match DSP_GetStatus s dev with
  | some o => decide (o.ret = 0)
  | none => false

/-- The session flag as the specification states it: raised by a `DSP_Play` that
succeeds, lowered by a `DSP_Play` that does not, by every `DSP_Stop`, by every
`DSP_Uninit` and by a `DSP_GetStatus` that returns 0. -/
def specLiveStep (s : State) (live : Bool) : Op → Bool
  | Op.play data dev => playSucceeds data dev
  | Op.stop => false
  | Op.uninit => false
  | Op.getStatus dev => live && !statusIsZero s dev
  | _ => live

/-- The session flag as the specification states it, after the operations `ops`. -/
def specLive (y : Sys) (live : Bool) : List Op → Bool
  | [] => live
  | op :: ops =>
    match step y op with
    | none => live
    | some y' => specLive y' (specLiveStep y.st live op) ops

/-- The session flag as the driver keeps it: a `DSP_Uninit` lowers it only
when the driver is initialised at that call. -/
def sessionLiveStep (s : State) (live : Bool) : Op → Bool
  | Op.play data dev => playSucceeds data dev
  | Op.stop => false
  | Op.uninit => if s.s_init then false else live
  | Op.getStatus dev => live && !statusIsZero s dev
  | _ => live

/-- The session flag as the driver keeps it, after the operations `ops`. -/
def sessionLive (y : Sys) (live : Bool) : List Op → Bool
  | [] => live
  | op :: ops =>
    match step y op with
    | none => live
    | some y' => sessionLive y' (sessionLiveStep y.st live op) ops

/-- The statics after a sequence of `DSP_Play` calls. -/
def playAll (s : State) : List (Mem × PlayDev) → State
  | [] => s
  | p :: rest => playAll (DSP_Play s p.1 p.2).st rest

/-- Whether an operation is a `DSP_Play`. -/
def Op.isPlay : Op → Bool
  | Op.play _ _ => true
  | _ => false

/-! ### Sample inputs -/

/-- Two sessions one after the other on an initialised driver. -/
def sampleOps : List Op :=
  [Op.init, Op.play (fun i => if i = 20 then 26 else if i = 26 then 1 else if i = 27 then 6 else 0)
      { open_ret := 0, open_pcm := 7, any_ret := 0, channels_ret := 0, rate_ret := 0,
        params_ret := 0, async_ret := 0, async_handler := 1, avail_ret := 0, writei_ret := 4 },
   Op.callback { avail_update_ret := 100 },
   Op.getStatus { state_ret := 3, avail_ret := 0 },
   Op.play (fun i => if i = 20 then 26 else if i = 26 then 1 else if i = 27 then 5 else 0)
      { open_ret := 0, open_pcm := 9, any_ret := 0 - 1, channels_ret := 0, rate_ret := 0,
        params_ret := 0, async_ret := 0 - 1, async_handler := 1, avail_ret := 64, writei_ret := 3 }]

/-- The program after `sampleOps`. -/
def sampleSys : Sys :=
  { st := { s_dsp := some 9, s_dspAsync := some 1, s_init := true, s_playing := true,
            s_data := [0, 0, 0, 0], s_dataLen := 4, s_buffer := 3, s_bufferLen := 0,
            s_bufferDone := 64 },
    log := [Call.snd_pcm_open 0 7, Call.snd_pcm_hw_params_any (some 7),
            Call.snd_pcm_hw_params_set_access (some 7), Call.snd_pcm_hw_params_set_format (some 7),
            Call.snd_pcm_hw_params_set_channels (some 7) 1,
            Call.snd_pcm_hw_params_set_rate (some 7) 3906, Call.snd_pcm_hw_params (some 7),
            Call.snd_async_add_pcm_handler (some 7), Call.snd_pcm_writei (some 7) 0 4,
            Call.snd_pcm_avail_update (some 7), Call.snd_pcm_state (some 7),
            Call.snd_pcm_drop (some 7), Call.snd_pcm_close (some 7),
            Call.snd_pcm_open 0 9, Call.snd_pcm_hw_params_any (some 9),
            Call.Warning Diag.anyFailed,
            Call.snd_pcm_hw_params_set_access (some 9), Call.snd_pcm_hw_params_set_format (some 9),
            Call.snd_pcm_hw_params_set_channels (some 9) 1,
            Call.snd_pcm_hw_params_set_rate (some 9) 3906, Call.snd_pcm_hw_params (some 9),
            Call.snd_async_add_pcm_handler (some 9), Call.snd_pcm_avail (some 9),
            Call.Warning (Diag.asyncUnsupported 64), Call.snd_pcm_writei (some 9) 0 3] }

/-- A Creative Voice File image: header-length field 26, one sound data block
of declared size `12`, frequency divisor `0x80`, codec 0, ten samples. -/
def sampleVoc : Mem := fun i =>
  ([0, 0, 0, 0, 0, 0, 0, 0, 0, 0, 0, 0, 0, 0, 0, 0, 0, 0, 0, 0, 26, 0, 0, 0, 0, 0,
    1, 12, 0, 0, 128, 0, 10, 20, 30, 40, 50, 60, 70, 80, 90, 100] : List Nat).getD i 0

/-- A file whose first block is the terminator. -/
def terminatorVoc : Mem := fun i =>
  ([0, 0, 0, 0, 0, 0, 0, 0, 0, 0, 0, 0, 0, 0, 0, 0, 0, 0, 0, 0, 26, 0, 0, 0, 0, 0, 0] : List Nat).getD i 0

/-- A sound data block with `n` samples (`n + 2 < 256`), divisor `0x80`, codec 0. -/
def vocOfLength (n : Nat) : Mem := fun i =>
  if i = 20 then 26 else if i = 26 then 1 else if i = 27 then n + 2 else if i = 30 then 128 else 0

/-- A device on which every call succeeds and the first write takes `w` samples. -/
def goodDev (pcm : Nat) (w : Int) : PlayDev :=
  { open_ret := 0, open_pcm := pcm, any_ret := 0, channels_ret := 0, rate_ret := 0,
    params_ret := 0, async_ret := 0, async_handler := 1, avail_ret := 0, writei_ret := w }

/-- A session is opened on a driver that was never initialised, then
`DSP_Uninit` is called. -/
def uninitOps : List Op := [Op.play sampleVoc (goodDev 7 10), Op.uninit]

/-- A device without asynchronous handlers: 64 samples are free at the start
and the first write takes `w` samples. -/
def pollDev (pcm : Nat) (w : Int) : PlayDev :=
  { open_ret := 0, open_pcm := pcm, any_ret := 0, channels_ret := 0, rate_ret := 0,
    params_ret := 0, async_ret := 0 - 1, async_handler := 0, avail_ret := 64, writei_ret := w }

/-- A device that cannot be opened. -/
def deadDev : PlayDev :=
  { open_ret := 0 - 2, open_pcm := 0, any_ret := 0, channels_ret := 0, rate_ret := 0,
    params_ret := 0, async_ret := 0, async_handler := 0, avail_ret := 0, writei_ret := 0 }

end Dsp

/-! # GUI: `GUI_DisplayText` of `src/gui/gui.c` -/

namespace Gui

/-- The fields of `g_global` that `GUI_DisplayText` reads or writes.  The
declaration (`global.h`) is not among the source files: the three texts
are taken as C strings (the bytes before the terminator), `variable_373C`
and `variable_76AC` as 32-bit and every other field as 16-bit values. -/
structure Global where
  variable_3644 : List Nat
  variable_3694 : List Nat
  variable_36E4 : List Nat
  variable_3734 : Nat
  variable_3736 : Nat
  variable_3738 : Nat
  variable_373A : Nat
  variable_373C : Nat
  variable_3740 : Nat
  variable_38C4 : Nat
  variable_6668_csip : Nat
  variable_6D59 : Nat
  variable_76AC : Nat
  variable_8AD8 : Nat
  variable_8ADA : Nat
  variable_8ADC : Nat
  variable_992B : Nat
  variable_992D : Nat
  variable_992F : Nat
  variable_9931 : Nat
  deriving DecidableEq, Repr

/-- The routines of the emulated program that `GUI_DisplayText` calls. -/
inductive EmuFn
  | emu_Unknown_07AE_0000
  | f__2598_0000_0017_EB80
  | emu_GUI_DrawFilledRectangle
  | emu_GUI_DrawText_Wrapper
  | f__2642_0002_005E_87F6
  | f__24D0_000D_0039_C17D
  | f__2642_0069_0008_D517
  deriving DecidableEq, Repr

/-- The emulated routines are not among the source files and are a
parameter: given the routine, the words pushed for it (in push order) and the
globals, the globals after the call and the value left in `emu_ax`.  The
registers and the stack of the emulated processor are not modelled. -/
abbrev Emu := EmuFn → List Nat → Global → Global × Nat

/-- The cast `(int16)x`. -/
def toI16 (x : Nat) : Int :=
  if x % 65536 < 32768 then ((x % 65536 : Nat) : Int) else ((x % 65536 : Nat) : Int) - 65536

/-- The library call `tolower` of the C locale on a byte. -/
def tolower (c : Nat) : Nat := if 65 ≤ c ∧ c ≤ 90 then c + 32 else c

/-- The library call `strcasecmp` of the C library on two C strings. -/
def strcasecmp : List Nat → List Nat → Int
  | [], [] => 0
  | [], b :: _ => 0 - (tolower b : Int)
  | a :: _, [] => (tolower a : Int)
  | a :: as, b :: bs =>
    if tolower a = tolower b then strcasecmp as bs else (tolower a : Int) - (tolower b : Int)

/-- The C string left in a buffer of `size` bytes by `vsnprintf`, where `out`
is the expansion of the format with its arguments. -/
def vsnprintf (size : Nat) (out : List Nat) : List Nat :=
  (out.takeWhile (fun c => c ≠ 0)).take (size - 1)

/-- The body of `if (g_global->variable_373A != 0) { ... }` in
`GUI_DisplayText` (the scroll in progress), which returns on every path;
`none` when the `assert` fails.  The assignments that end the block are
written as one update, `p3734` being the new `variable_3734`. -/
def GUI_DisplayText_scroll (emu : Emu) (g : Global) (buffer : List Nat) (arg0A : Nat) :
    Option Global :=
  let g := if buffer ≠ [] ∧ strcasecmp buffer g.variable_3694 ≠ 0
              ∧ toI16 arg0A ≥ toI16 g.variable_3738
    then { g with variable_36E4 := buffer, variable_3738 := arg0A } else g
  if Dsp.toI32 g.variable_373C > Dsp.toI32 g.variable_76AC then some g else
  let r := emu EmuFn.emu_Unknown_07AE_0000 [7] g
  let g := r.1
  let loc04 := r.2
  let redraw : Option Global :=
    if g.variable_38C4 ≠ 0 then
      let r := emu EmuFn.f__2598_0000_0017_EB80 [2] g
      let g := r.1
      let loc02 := r.2
      if g.variable_6668_csip ≠ 0x22A60D31 then none else
      let g := (emu EmuFn.emu_GUI_DrawFilledRectangle [g.variable_6D59, 23, 319, 0, 0] g).1
      let g := (emu EmuFn.emu_GUI_DrawText_Wrapper
        [18, 0, g.variable_8ADA, 2, (g.variable_992D * 8) % 65536, 0x353F, 0x3694] g).1
      let g := (emu EmuFn.emu_GUI_DrawText_Wrapper
        [18, 0, g.variable_8AD8, 13, (g.variable_992D * 8) % 65536, 0x353F, 0x3644] g).1
      let g := { g with variable_38C4 := 0 }
      some (emu EmuFn.f__2598_0000_0017_EB80 [loc02] g).1
    else some g
  match redraw with
  | none => none
  | some g =>
  let g := (emu EmuFn.f__2642_0002_005E_87F6 [7] g).1
  let loc06 := if g.variable_3740 + g.variable_9931 > 24
    then (24 + 65536 - g.variable_3740 % 65536) % 65536 else g.variable_9931
  let g := (emu EmuFn.f__24D0_000D_0039_C17D
    [0, 2, loc06, g.variable_992F, g.variable_992B, g.variable_992D, g.variable_3740,
     g.variable_992D] g).1
  let g := (emu EmuFn.f__2642_0069_0008_D517 [] g).1
  let g := (emu EmuFn.emu_Unknown_07AE_0000 [loc04] g).1
  if g.variable_3740 ≠ 0 then
    some { g with
      variable_373C := if toI16 g.variable_3738 ≤ toI16 g.variable_3736
        then (g.variable_76AC + 1) % 4294967296 else g.variable_373C,
      variable_3740 := (g.variable_3740 + 65535) % 65536 }
  else
  let p3734 := if g.variable_3736 ≠ 0 then (g.variable_3736 + 65535) % 65536 else 0
  some { g with
    variable_3644 := g.variable_3694,
    variable_8AD8 := g.variable_8ADA,
    variable_3734 := p3734,
    variable_3694 := g.variable_36E4,
    variable_3736 := g.variable_3738,
    variable_8ADA := g.variable_8ADC,
    variable_36E4 := [],
    variable_3738 := 0xFFFF,
    variable_38C4 := 1,
    variable_373C :=
      (g.variable_76AC + (if toI16 g.variable_3738 ≤ toI16 p3734 then 900 else 1)) % 4294967296,
    variable_373A := 0 }

/-- The function `void GUI_DisplayText(const char *str, uint16 arg0A, ...)`.  `str` is
`none` for `NULL` and otherwise the expansion of the format with its
arguments; `none` is returned when the `assert` fails.  Assignments that
follow one another are written as one update. -/
def GUI_DisplayText (emu : Emu) (g : Global) (str : Option (List Nat)) (arg0A : Nat) :
    Option Global :=
  let arg0A := arg0A % 65536
  let buffer : List Nat :=
    match str with
    | none => []
    | some out => vsnprintf 80 out
  if arg0A = 0xFFFF then
    some { g with variable_3734 := 0xFFFF, variable_3736 := 0xFFFF, variable_3738 := 0xFFFF,
                  variable_3644 := [], variable_3694 := [], variable_36E4 := [],
                  variable_373A := 0, variable_373C := 0 }
  else
  let g := if arg0A = 0xFFFE then
      { g with
        variable_3736 := if g.variable_373A = 0 then 0xFFFF else g.variable_3736,
        variable_3694 := if g.variable_373A = 0 then [] else g.variable_3694,
        variable_3738 := 0xFFFF,
        variable_36E4 := [] }
    else g
  if g.variable_373A ≠ 0 then GUI_DisplayText_scroll emu g buffer arg0A else
  let queued : Option Global :=
    if buffer ≠ [] then
      if strcasecmp buffer g.variable_3644 ≠ 0 ∧ strcasecmp buffer g.variable_3694 ≠ 0
          ∧ strcasecmp buffer g.variable_36E4 ≠ 0 then
        if toI16 arg0A ≥ toI16 g.variable_3736 then
          some { g with
            variable_36E4 := g.variable_3694,
            variable_8ADC := g.variable_8ADA,
            variable_3738 := g.variable_3736,
            variable_3694 := buffer,
            variable_8ADA := 12,
            variable_3736 := arg0A }
        else if toI16 arg0A ≥ toI16 g.variable_3738 then
          some { g with variable_36E4 := buffer, variable_3738 := arg0A, variable_8ADC := 12 }
        else some g
      else some g
    else
      if g.variable_3644 = [] ∧ g.variable_3694 = [] then none else some g
  match queued with
  | none => some g
  | some g =>
  if toI16 g.variable_3736 ≤ toI16 g.variable_3734 ∧ Dsp.toI32 g.variable_373C ≥ Dsp.toI32 g.variable_76AC
  then some g
  else some { g with variable_373A := 1, variable_3740 := 10, variable_373C := 0 }

/-- Equality of two texts when case is ignored. -/
abbrev eqIgnoreCase (a b : List Nat) : Prop := a.map tolower = b.map tolower

/-- A C string holds no terminator. -/
def IsCStr (t : List Nat) : Prop := ∀ c ∈ t, c ≠ 0

/-- The three queued texts with their priorities. -/
def Global.queue (g : Global) : List Nat × List Nat × List Nat × Nat × Nat × Nat :=
  (g.variable_3644, g.variable_3694, g.variable_36E4, g.variable_3734, g.variable_3736, g.variable_3738)

/-- The emulated routines doing nothing, for sample runs. -/
def idleEmu : Emu := fun _ _ g => (g, 0)

/-- An empty queue with no scroll in progress. -/
def emptyGlobal : Global :=
  { variable_3644 := [], variable_3694 := [], variable_36E4 := [],
    variable_3734 := 0xFFFF, variable_3736 := 0xFFFF, variable_3738 := 0xFFFF,
    variable_373A := 0, variable_373C := 0, variable_3740 := 0, variable_38C4 := 0,
    variable_6668_csip := 0x22A60D31, variable_6D59 := 0, variable_76AC := 0,
    variable_8AD8 := 0, variable_8ADA := 0, variable_8ADC := 0,
    variable_992B := 0, variable_992D := 0, variable_992F := 0, variable_9931 := 0 }

end Gui

end OpenDUNE

/-! # Properties of the sound driver -/

namespace OpenDUNE

namespace Dsp

/-! ## Arithmetic -/

theorem rd_lt (p : Mem) (i : Nat) : rd p i < 256 := Nat.mod_lt _ (by norm_num)

theorem toU32_lt (r : Int) : toU32 r < 4294967296 := by
  unfold toU32
  have h1 : 0 ≤ r % 4294967296 := Int.emod_nonneg _ (by norm_num)
  have h2 : r % 4294967296 < 4294967296 := Int.emod_lt_of_pos _ (by norm_num)
  omega

theorem toU32_of_range (r : Int) (h0 : 0 ≤ r) (h1 : r < 4294967296) : (toU32 r : Int) = r := by
  unfold toU32
  rw [Int.emod_eq_of_lt h0 h1]
  omega

theorem sub32_lt (a b : Nat) : sub32 a b < 4294967296 := Nat.mod_lt _ (by norm_num)

theorem sub32_of_le (a b : Nat) (hb : b ≤ a) (ha : a < 4294967296) : sub32 a b = a - b := by
  unfold sub32
  omega

theorem blockLen_lt (b : Mem) : blockLen b < 4294967296 := sub32_lt _ _

/-- With a declared size of at least 2 the computed length is the size less 2. -/
theorem blockLen_eq (b : Mem) (h sz : Nat) (hh : h = rd b 20 + 256 * rd b 21)
    (hs : sz = rd b (h + 1) + 256 * rd b (h + 2) + 65536 * rd b (h + 3)) (h2 : 2 ≤ sz) :
    blockLen b = sz - 2 := by
  have e : READ_LE_UINT16 b 20 = h := by rw [hh]; rfl
  unfold blockLen
  rw [e]
  unfold READ_LE_UINT32 sub32
  have h0 := rd_lt b h
  have h1 := rd_lt b (h + 1)
  have h2 := rd_lt b (h + 2)
  have h3 := rd_lt b (h + 3)
  omega

/-! ## What each function does to the statics -/

theorem DSP_Stop_dsp (s : State) : (DSP_Stop s).st.s_dsp = none := by
  unfold DSP_Stop; split_ifs with h <;> simp [h]

theorem DSP_Stop_of_none (s : State) (h : s.s_dsp = none) : DSP_Stop s = ⟨s, []⟩ := by
  unfold DSP_Stop; rw [if_pos h]

theorem DSP_Stop_of_some (s : State) (p : Nat) (h : s.s_dsp = some p) :
    DSP_Stop s = ⟨{ s with s_dsp := none, s_playing := false },
      [Call.snd_pcm_drop (some p), Call.snd_pcm_close (some p)]⟩ := by
  unfold DSP_Stop; simp [h]

theorem DSP_Stop_dataLen (s : State) : (DSP_Stop s).st.s_dataLen = s.s_dataLen := by
  unfold DSP_Stop; split_ifs <;> rfl

theorem DSP_Stop_bufferDone (s : State) : (DSP_Stop s).st.s_bufferDone = s.s_bufferDone := by
  unfold DSP_Stop; split_ifs <;> rfl

theorem DSP_Stop_init (s : State) : (DSP_Stop s).st.s_init = s.s_init := by
  unfold DSP_Stop; split_ifs <;> rfl

/-- After `DSP_Stop` the playing flag is clear as soon as it implied a handle. -/
theorem DSP_Stop_playing (s : State) (hinv : s.s_playing = true → s.s_dsp ≠ none) :
    (DSP_Stop s).st.s_playing = false := by
  unfold DSP_Stop
  split_ifs with h
  · cases hp : s.s_playing
    · rfl
    · exact absurd h (hinv hp)
  · rfl

/-- A first block that is not sound data: `DSP_Play` is `DSP_Stop`. -/
theorem DSP_Play_other (s : State) (b : Mem) (dev : PlayDev)
    (h : rd b (READ_LE_UINT16 b 20) ≠ 1) : DSP_Play s b dev = DSP_Stop s := by
  unfold DSP_Play
  simp only [if_pos h]

/-- The statics after a `DSP_Play` whose `snd_pcm_open` fails. -/
theorem DSP_Play_st_openFail (s : State) (b : Mem) (dev : PlayDev)
    (htype : rd b (READ_LE_UINT16 b 20) = 1) (hopen : dev.open_ret < 0) :
    (DSP_Play s b dev).st =
      { (DSP_Stop s).st with
        s_data := decodedData (DSP_Stop s).st b,
        s_dataLen := if (DSP_Stop s).st.s_dataLen < blockLen b then blockLen b
                     else (DSP_Stop s).st.s_dataLen,
        s_dsp := none } := by
  unfold DSP_Play decodedData blockLen
  simp only [htype, hopen, ne_eq, not_true_eq_false, if_false, if_true]

/-- The statics after a `DSP_Play` whose `snd_pcm_hw_params` fails. -/
theorem DSP_Play_st_commitFail (s : State) (b : Mem) (dev : PlayDev)
    (htype : rd b (READ_LE_UINT16 b 20) = 1) (hopen : 0 ≤ dev.open_ret)
    (hpar : dev.params_ret < 0) :
    (DSP_Play s b dev).st =
      { (DSP_Stop s).st with
        s_data := decodedData (DSP_Stop s).st b,
        s_dataLen := if (DSP_Stop s).st.s_dataLen < blockLen b then blockLen b
                     else (DSP_Stop s).st.s_dataLen,
        s_dsp := none } := by
  unfold DSP_Play decodedData blockLen
  simp only [htype, not_lt.mpr hopen, hpar, ne_eq, not_true_eq_false, if_false, if_true]

/-- The statics after a `DSP_Play` that opens and configures the device. -/
theorem DSP_Play_st_ok (s : State) (b : Mem) (dev : PlayDev)
    (htype : rd b (READ_LE_UINT16 b 20) = 1) (hopen : 0 ≤ dev.open_ret)
    (hpar : 0 ≤ dev.params_ret) :
    (DSP_Play s b dev).st =
      { (DSP_Stop s).st with
        s_data := decodedData (DSP_Stop s).st b,
        s_dataLen := if (DSP_Stop s).st.s_dataLen < blockLen b then blockLen b
                     else (DSP_Stop s).st.s_dataLen,
        s_dsp := some dev.open_pcm,
        s_dspAsync := if dev.async_ret ≥ 0 then some dev.async_handler else (DSP_Stop s).st.s_dspAsync,
        s_bufferDone := if dev.async_ret ≥ 0 then 0 else toU32 dev.avail_ret,
        s_buffer := 0 + toU32 dev.writei_ret,
        s_bufferLen := sub32 (blockLen b) (toU32 dev.writei_ret),
        s_playing := true } := by
  unfold DSP_Play decodedData blockLen
  simp only [htype, not_lt.mpr hopen, not_lt.mpr hpar, ne_eq, not_true_eq_false, if_false, if_true]

/-- The three ways a `DSP_Play` on a sound data block can end. -/
theorem DSP_Play_cases (dev : PlayDev) :
    dev.open_ret < 0 ∨ (0 ≤ dev.open_ret ∧ dev.params_ret < 0) ∨
      (0 ≤ dev.open_ret ∧ 0 ≤ dev.params_ret) := by
  omega

/-- The capacity after a `DSP_Play` on a sound data block. -/
theorem DSP_Play_dataLen (s : State) (b : Mem) (dev : PlayDev)
    (htype : rd b (READ_LE_UINT16 b 20) = 1) :
    (DSP_Play s b dev).st.s_dataLen = max s.s_dataLen (blockLen b) := by
  have key : (if (DSP_Stop s).st.s_dataLen < blockLen b then blockLen b
      else (DSP_Stop s).st.s_dataLen) = max s.s_dataLen (blockLen b) := by
    rw [DSP_Stop_dataLen]
    split_ifs <;> omega
  rcases DSP_Play_cases dev with h | ⟨h1, h2⟩ | ⟨h1, h2⟩
  · rw [DSP_Play_st_openFail s b dev htype h]; dsimp only; exact key
  · rw [DSP_Play_st_commitFail s b dev htype h1 h2]; dsimp only; exact key
  · rw [DSP_Play_st_ok s b dev htype h1 h2]; dsimp only; exact key

/-- The decode buffer after a `DSP_Play` on a sound data block. -/
theorem DSP_Play_data (s : State) (b : Mem) (dev : PlayDev)
    (htype : rd b (READ_LE_UINT16 b 20) = 1) :
    (DSP_Play s b dev).st.s_data = decodedData (DSP_Stop s).st b := by
  rcases DSP_Play_cases dev with h | ⟨h1, h2⟩ | ⟨h1, h2⟩
  · rw [DSP_Play_st_openFail s b dev htype h]
  · rw [DSP_Play_st_commitFail s b dev htype h1 h2]
  · rw [DSP_Play_st_ok s b dev htype h1 h2]

/-- The first `blockLen` bytes of the decode buffer are the samples of the block. -/
theorem decodedData_take (s : State) (b : Mem) :
    (decodedData s b).take (blockLen b) =
      (List.range (blockLen b)).map (fun i => rd b (READ_LE_UINT16 b 20 + 6 + i)) := by
  unfold decodedData memcpy
  rw [List.take_left']
  · apply List.map_congr_left
    intro i _
    show b (READ_LE_UINT16 b 20 + 4 + 2 + i) % 256 = b (READ_LE_UINT16 b 20 + 6 + i) % 256
    rw [show READ_LE_UINT16 b 20 + 4 + 2 + i = READ_LE_UINT16 b 20 + 6 + i by omega]
  · simp

/-! ## The calls of `DSP_Play` -/

/-- The calls of a `DSP_Play` whose `snd_pcm_open` fails. -/
theorem DSP_Play_calls_openFail (s : State) (b : Mem) (dev : PlayDev)
    (htype : rd b (READ_LE_UINT16 b 20) = 1) (hopen : dev.open_ret < 0) :
    (DSP_Play s b dev).calls =
      (DSP_Stop s).calls ++ (codecCalls b ++
        [Call.snd_pcm_open dev.open_ret dev.open_pcm, Call.Error Diag.initFailed]) := by
  unfold DSP_Play codecCalls
  simp only [htype, hopen, ne_eq, not_true_eq_false, if_false, if_true, List.append_assoc,
    List.singleton_append, List.cons_append, List.nil_append]

/-- The calls of a `DSP_Play` whose `snd_pcm_hw_params` fails. -/
theorem DSP_Play_calls_commitFail (s : State) (b : Mem) (dev : PlayDev)
    (htype : rd b (READ_LE_UINT16 b 20) = 1) (hopen : 0 ≤ dev.open_ret)
    (hpar : dev.params_ret < 0) :
    (DSP_Play s b dev).calls =
      (DSP_Stop s).calls ++ (codecCalls b ++ (Call.snd_pcm_open dev.open_ret dev.open_pcm ::
        (paramCalls b dev ++
          [Call.Error Diag.paramsFailed, Call.snd_pcm_close (some dev.open_pcm)]))) := by
  unfold DSP_Play codecCalls paramCalls
  simp only [htype, not_lt.mpr hopen, hpar, ne_eq, not_true_eq_false, if_false, if_true,
    List.append_assoc, List.singleton_append, List.cons_append, List.nil_append]

/-- The calls of a `DSP_Play` that opens and configures the device. -/
theorem DSP_Play_calls_ok (s : State) (b : Mem) (dev : PlayDev)
    (htype : rd b (READ_LE_UINT16 b 20) = 1) (hopen : 0 ≤ dev.open_ret)
    (hpar : 0 ≤ dev.params_ret) :
    (DSP_Play s b dev).calls =
      (DSP_Stop s).calls ++ (codecCalls b ++ (Call.snd_pcm_open dev.open_ret dev.open_pcm ::
        (paramCalls b dev ++ startCalls b dev))) := by
  unfold DSP_Play codecCalls paramCalls startCalls blockLen
  simp only [htype, not_lt.mpr hopen, not_lt.mpr hpar, ne_eq, not_true_eq_false, if_false, if_true,
    List.append_assoc, List.singleton_append, List.cons_append, List.nil_append]


/-! ## Membership in the calls of `DSP_Play` -/

theorem mem_DSP_Stop_calls (s : State) (c : Call) (h : c ∈ (DSP_Stop s).calls) :
    c = Call.snd_pcm_drop s.s_dsp ∨ c = Call.snd_pcm_close s.s_dsp := by
  unfold DSP_Stop at h
  split_ifs at h
  · simp at h
  · simpa using h

theorem codecCalls_of_zero (b : Mem) (h : rd b (READ_LE_UINT16 b 20 + 5) = 0) :
    codecCalls b = [] := by
  unfold codecCalls
  rw [show READ_LE_UINT16 b 20 + 4 + 1 = READ_LE_UINT16 b 20 + 5 by omega, h]
  simp

theorem mem_codecCalls (b : Mem) (c : Call) (h : c ∈ codecCalls b) :
    ∃ k, c = Call.Warning (Diag.unsupportedCodec k) := by
  unfold codecCalls at h
  split_ifs at h
  · exact ⟨_, by simpa using h⟩
  · simp at h

theorem rate_mem_paramCalls (b : Mem) (dev : PlayDev) :
    Call.snd_pcm_hw_params_set_rate (some dev.open_pcm)
      (1000000 / (256 - rd b (READ_LE_UINT16 b 20 + 4))) ∈ paramCalls b dev := by
  unfold paramCalls
  simp

theorem writei_mem_startCalls (b : Mem) (dev : PlayDev) :
    Call.snd_pcm_writei (some dev.open_pcm) 0 (blockLen b) ∈ startCalls b dev := by
  unfold startCalls
  simp

/-- No call of the parameter phase opens, closes or writes, and none warns about the codec. -/
theorem mem_paramCalls (b : Mem) (dev : PlayDev) (c : Call) (h : c ∈ paramCalls b dev) :
    c.isWrite = false ∧ c.isOpen = false ∧ (∀ live, trackHandle live c = live) ∧
      (∀ k, c ≠ Call.Warning (Diag.unsupportedCodec k)) := by
  unfold paramCalls at h
  simp only [List.mem_append, List.mem_cons, List.mem_singleton, List.not_mem_nil, or_false] at h
  rcases h with (((((h | h) | h) | h) | h) | h) | h
  · subst h; simp [Call.isWrite, Call.isOpen, trackHandle]
  · split_ifs at h
    · simp only [List.mem_singleton] at h; subst h; simp [Call.isWrite, Call.isOpen, trackHandle]
    · simp at h
  · rcases h with h | h | h <;> subst h <;> simp [Call.isWrite, Call.isOpen, trackHandle]
  · split_ifs at h
    · simp only [List.mem_singleton] at h; subst h; simp [Call.isWrite, Call.isOpen, trackHandle]
    · simp at h
  · subst h; simp [Call.isWrite, Call.isOpen, trackHandle]
  · split_ifs at h
    · simp only [List.mem_singleton] at h; subst h; simp [Call.isWrite, Call.isOpen, trackHandle]
    · simp at h
  · subst h; simp [Call.isWrite, Call.isOpen, trackHandle]

/-- No call of the start phase opens or closes, and none warns about the codec. -/
theorem mem_startCalls (b : Mem) (dev : PlayDev) (c : Call) (h : c ∈ startCalls b dev) :
    c.isOpen = false ∧ (∀ live, trackHandle live c = live) ∧
      (∀ k, c ≠ Call.Warning (Diag.unsupportedCodec k)) := by
  unfold startCalls at h
  simp only [List.mem_append, List.mem_cons, List.mem_singleton, List.not_mem_nil, or_false] at h
  rcases h with (h | h) | h
  · subst h; simp [Call.isOpen, trackHandle]
  · split_ifs at h
    · simp at h
    · simp only [List.mem_cons, List.mem_singleton, List.not_mem_nil, or_false] at h
      rcases h with h | h <;> subst h <;> simp [Call.isOpen, trackHandle]
  · subst h; simp [Call.isOpen, trackHandle]


/-! ## Decoding (C1) -/

/-- C1: for a file `b` whose header-length field is `h`, whose first block has
type 1, declared size `sz ≥ 2` and codec 0, `DSP_Play` leaves in the decode
buffer exactly the `sz - 2` bytes `b[h+6 .. h+6+sz-2)`, issues no codec
warning, hands the rate `1000000 / (256 - b[h+4])` to the device once it is
open, and offers exactly `sz - 2` samples to the first write. -/
theorem C1_decode (s : State) (b : Mem) (dev : PlayDev) (h sz : Nat)
    (hh : h = rd b 20 + 256 * rd b 21)
    (hs : sz = rd b (h + 1) + 256 * rd b (h + 2) + 65536 * rd b (h + 3))
    (htype : rd b h = 1) (hsize : 2 ≤ sz) (hcodec : rd b (h + 5) = 0) :
    (DSP_Play s b dev).st.s_data.take (sz - 2)
        = (List.range (sz - 2)).map (fun i => rd b (h + 6 + i))
    ∧ sz - 2 ≤ (DSP_Play s b dev).st.s_dataLen
    ∧ (∀ k, Call.Warning (Diag.unsupportedCodec k) ∉ (DSP_Play s b dev).calls)
    ∧ (0 ≤ dev.open_ret →
        Call.snd_pcm_hw_params_set_rate (some dev.open_pcm) (1000000 / (256 - rd b (h + 4)))
          ∈ (DSP_Play s b dev).calls)
    ∧ (0 ≤ dev.open_ret → 0 ≤ dev.params_ret →
        Call.snd_pcm_writei (some dev.open_pcm) 0 (sz - 2) ∈ (DSP_Play s b dev).calls) := by
  have e16 : READ_LE_UINT16 b 20 = h := by rw [hh]; rfl
  have elen : blockLen b = sz - 2 := blockLen_eq b h sz hh hs hsize
  have ht : rd b (READ_LE_UINT16 b 20) = 1 := by rw [e16]; exact htype
  have hc : codecCalls b = [] := codecCalls_of_zero b (by rw [e16]; exact hcodec)
  have hstop : ∀ k, Call.Warning (Diag.unsupportedCodec k) ∉ (DSP_Stop s).calls := by
    intro k hk
    rcases mem_DSP_Stop_calls s _ hk with h1 | h1 <;> cases h1
  refine ⟨?_, ?_, ?_, ?_, ?_⟩
  · rw [DSP_Play_data s b dev ht, ← elen, decodedData_take, e16]
  · rw [DSP_Play_dataLen s b dev ht, elen]
    exact le_max_right _ _
  · intro k hk
    rcases DSP_Play_cases dev with h1 | ⟨h1, h2⟩ | ⟨h1, h2⟩
    · rw [DSP_Play_calls_openFail s b dev ht h1, hc] at hk
      simp only [List.nil_append, List.mem_append, List.mem_cons, List.mem_singleton,
        List.not_mem_nil, or_false] at hk
      rcases hk with hk | hk | hk
      · exact hstop k hk
      · cases hk
      · cases hk
    · rw [DSP_Play_calls_commitFail s b dev ht h1 h2, hc] at hk
      simp only [List.nil_append, List.mem_append, List.mem_cons, List.mem_singleton,
        List.not_mem_nil, or_false] at hk
      rcases hk with hk | hk | hk | hk | hk
      · exact hstop k hk
      · cases hk
      · exact (mem_paramCalls b dev _ hk).2.2.2 k rfl
      · cases hk
      · cases hk
    · rw [DSP_Play_calls_ok s b dev ht h1 h2, hc] at hk
      simp only [List.nil_append, List.mem_append, List.mem_cons] at hk
      rcases hk with hk | hk | hk | hk
      · exact hstop k hk
      · cases hk
      · exact (mem_paramCalls b dev _ hk).2.2.2 k rfl
      · exact (mem_startCalls b dev _ hk).2.2 k rfl
  · intro hopen
    have hr := rate_mem_paramCalls b dev
    rw [e16] at hr
    by_cases hpar : dev.params_ret < 0
    · rw [DSP_Play_calls_commitFail s b dev ht hopen hpar]
      simp only [List.mem_append, List.mem_cons]
      exact Or.inr (Or.inr (Or.inr (Or.inl hr)))
    · rw [DSP_Play_calls_ok s b dev ht hopen (not_lt.mp hpar)]
      simp only [List.mem_append, List.mem_cons]
      exact Or.inr (Or.inr (Or.inr (Or.inl hr)))
  · intro hopen hpar
    have hw := writei_mem_startCalls b dev
    rw [elen] at hw
    rw [DSP_Play_calls_ok s b dev ht hopen hpar]
    simp only [List.mem_append, List.mem_cons]
    exact Or.inr (Or.inr (Or.inr (Or.inr hw)))

/-- C1 at the sample file: header length 26, declared size 12, divisor `0x80`
give ten samples and the rate 7812. -/
theorem C1_decode_witness :
    (26 = rd sampleVoc 20 + 256 * rd sampleVoc 21
      ∧ 12 = rd sampleVoc (26 + 1) + 256 * rd sampleVoc (26 + 2) + 65536 * rd sampleVoc (26 + 3)
      ∧ rd sampleVoc 26 = 1 ∧ 2 ≤ 12 ∧ rd sampleVoc (26 + 5) = 0)
    ∧ ((DSP_Play State.initial sampleVoc (goodDev 7 10)).st.s_data.take (12 - 2)
        = (List.range (12 - 2)).map (fun i => rd sampleVoc (26 + 6 + i))
      ∧ 12 - 2 ≤ (DSP_Play State.initial sampleVoc (goodDev 7 10)).st.s_dataLen
      ∧ (∀ k, Call.Warning (Diag.unsupportedCodec k)
          ∉ (DSP_Play State.initial sampleVoc (goodDev 7 10)).calls)
      ∧ (0 ≤ (goodDev 7 10).open_ret →
          Call.snd_pcm_hw_params_set_rate (some (goodDev 7 10).open_pcm)
            (1000000 / (256 - rd sampleVoc (26 + 4)))
            ∈ (DSP_Play State.initial sampleVoc (goodDev 7 10)).calls)
      ∧ (0 ≤ (goodDev 7 10).open_ret → 0 ≤ (goodDev 7 10).params_ret →
          Call.snd_pcm_writei (some (goodDev 7 10).open_pcm) 0 (12 - 2)
            ∈ (DSP_Play State.initial sampleVoc (goodDev 7 10)).calls)) :=
  ⟨⟨by decide, by decide, by decide, by decide, by decide⟩,
   C1_decode State.initial sampleVoc (goodDev 7 10) 26 12 (by decide) (by decide) (by decide)
     (by decide) (by decide)⟩

/-! ## A first block that is not sound data (C4) -/

/-- C4, as stated, fails: a `DSP_Play` on a file that starts with the
terminator block, made while the session of an earlier `DSP_Play` is open,
gives up the device handle and clears the playing flag. -/
theorem C4_counterexample :
    rd terminatorVoc (READ_LE_UINT16 terminatorVoc 20) ≠ 1
    ∧ ¬ ((DSP_Play (DSP_Play State.initial sampleVoc (goodDev 7 10)).st terminatorVoc
            (goodDev 8 10)).st.s_dsp
          = (DSP_Play State.initial sampleVoc (goodDev 7 10)).st.s_dsp
        ∧ (DSP_Play (DSP_Play State.initial sampleVoc (goodDev 7 10)).st terminatorVoc
            (goodDev 8 10)).st.s_playing
          = (DSP_Play State.initial sampleVoc (goodDev 7 10)).st.s_playing) := by
  decide

/-- C4, amended: on a first block whose type is not 1, `DSP_Play` is
`DSP_Stop`.  The decode buffer, its capacity, the cursor, the remaining count
and the watermark are untouched and no device is opened; a handle that is
held is dropped and closed and the playing flag cleared; with no handle held
the state is unchanged and no call is made. -/
theorem C4_other_block (s : State) (b : Mem) (dev : PlayDev)
    (htype : rd b (READ_LE_UINT16 b 20) ≠ 1) :
    DSP_Play s b dev = DSP_Stop s
    ∧ (DSP_Play s b dev).st.s_data = s.s_data
    ∧ (DSP_Play s b dev).st.s_dataLen = s.s_dataLen
    ∧ (DSP_Play s b dev).st.s_buffer = s.s_buffer
    ∧ (DSP_Play s b dev).st.s_bufferLen = s.s_bufferLen
    ∧ (DSP_Play s b dev).st.s_bufferDone = s.s_bufferDone
    ∧ (∀ c ∈ (DSP_Play s b dev).calls, c.isOpen = false)
    ∧ (s.s_dsp = none → DSP_Play s b dev = ⟨s, []⟩)
    ∧ (∀ p, s.s_dsp = some p →
        DSP_Play s b dev = ⟨{ s with s_dsp := none, s_playing := false },
          [Call.snd_pcm_drop (some p), Call.snd_pcm_close (some p)]⟩) := by
  have e := DSP_Play_other s b dev htype
  rw [e]
  refine ⟨rfl, ?_, ?_, ?_, ?_, ?_, ?_, ?_, ?_⟩
  · unfold DSP_Stop; split_ifs <;> rfl
  · unfold DSP_Stop; split_ifs <;> rfl
  · unfold DSP_Stop; split_ifs <;> rfl
  · unfold DSP_Stop; split_ifs <;> rfl
  · unfold DSP_Stop; split_ifs <;> rfl
  · intro c hc
    rcases mem_DSP_Stop_calls s c hc with h | h <;> rw [h] <;> rfl
  · exact DSP_Stop_of_none s
  · exact DSP_Stop_of_some s

/-- C4 amended, at the terminator file played over an open session. -/
theorem C4_other_block_witness :
    rd terminatorVoc (READ_LE_UINT16 terminatorVoc 20) ≠ 1
    ∧ DSP_Play (DSP_Play State.initial sampleVoc (goodDev 7 10)).st terminatorVoc (goodDev 8 10)
        = DSP_Stop (DSP_Play State.initial sampleVoc (goodDev 7 10)).st :=
  ⟨by decide,
   (C4_other_block (DSP_Play State.initial sampleVoc (goodDev 7 10)).st terminatorVoc
      (goodDev 8 10) (by decide)).1⟩


/-! ## Capacity of the decode buffer (C8) -/

theorem playAll_dataLen_le (l : List (Mem × PlayDev)) :
    ∀ s : State, s.s_dataLen ≤ (playAll s l).s_dataLen := by
  induction l with
  | nil => intro s; exact le_refl _
  | cons p rest ih =>
    intro s
    show s.s_dataLen ≤ (playAll (DSP_Play s p.1 p.2).st rest).s_dataLen
    refine le_trans ?_ (ih _)
    by_cases ht : rd p.1 (READ_LE_UINT16 p.1 20) = 1
    · rw [DSP_Play_dataLen s p.1 p.2 ht]; exact le_max_left _ _
    · rw [DSP_Play_other s p.1 p.2 ht, DSP_Stop_dataLen]

/-- C8: a `DSP_Play` on a sound data block of payload length `blockLen b`
leaves the capacity at the maximum of the old capacity and that length, a
`DSP_Play` on any other input leaves it as it is, no sequence of `DSP_Play`
calls lowers it, and payload lengths `L2 < L1 < L3` played in the order
`L1, L2, L3` on a buffer no larger than `L1` give the capacities `L1, L1, L3`. -/
theorem C8_capacity_grows :
    (∀ (s : State) (b : Mem) (dev : PlayDev), rd b (READ_LE_UINT16 b 20) = 1 →
        (DSP_Play s b dev).st.s_dataLen = max s.s_dataLen (blockLen b))
    ∧ (∀ (s : State) (b : Mem) (dev : PlayDev), rd b (READ_LE_UINT16 b 20) ≠ 1 →
        (DSP_Play s b dev).st.s_dataLen = s.s_dataLen)
    ∧ (∀ (l : List (Mem × PlayDev)) (s : State), s.s_dataLen ≤ (playAll s l).s_dataLen)
    ∧ (∀ (s : State) (b1 b2 b3 : Mem) (d1 d2 d3 : PlayDev),
        rd b1 (READ_LE_UINT16 b1 20) = 1 → rd b2 (READ_LE_UINT16 b2 20) = 1 →
        rd b3 (READ_LE_UINT16 b3 20) = 1 →
        s.s_dataLen ≤ blockLen b1 → blockLen b2 < blockLen b1 → blockLen b1 < blockLen b3 →
        (playAll s [(b1, d1)]).s_dataLen = blockLen b1
        ∧ (playAll s [(b1, d1), (b2, d2)]).s_dataLen = blockLen b1
        ∧ (playAll s [(b1, d1), (b2, d2), (b3, d3)]).s_dataLen = blockLen b3) := by
  refine ⟨DSP_Play_dataLen, ?_, playAll_dataLen_le, ?_⟩
  · intro s b dev ht
    rw [DSP_Play_other s b dev ht, DSP_Stop_dataLen]
  · intro s b1 b2 b3 d1 d2 d3 h1 h2 h3 h0 h21 h13
    have e1 : (DSP_Play s b1 d1).st.s_dataLen = blockLen b1 := by
      rw [DSP_Play_dataLen s b1 d1 h1]; exact max_eq_right h0
    have e2 : (DSP_Play (DSP_Play s b1 d1).st b2 d2).st.s_dataLen = blockLen b1 := by
      rw [DSP_Play_dataLen _ b2 d2 h2, e1]; exact max_eq_left (le_of_lt h21)
    have e3 : (DSP_Play (DSP_Play (DSP_Play s b1 d1).st b2 d2).st b3 d3).st.s_dataLen
        = blockLen b3 := by
      rw [DSP_Play_dataLen _ b3 d3 h3, e2]; exact max_eq_right (le_of_lt h13)
    exact ⟨e1, e2, e3⟩

/-- C8 at payload lengths 5, 3, 9 from the initial state: capacities 5, 5, 9. -/
theorem C8_capacity_grows_witness :
    (playAll State.initial [(vocOfLength 5, goodDev 1 5)]).s_dataLen = 5
    ∧ (playAll State.initial [(vocOfLength 5, goodDev 1 5), (vocOfLength 3, goodDev 2 3)]).s_dataLen = 5
    ∧ (playAll State.initial [(vocOfLength 5, goodDev 1 5), (vocOfLength 3, goodDev 2 3),
        (vocOfLength 9, goodDev 3 9)]).s_dataLen = 9 := by
  have h := C8_capacity_grows.2.2.2 State.initial (vocOfLength 5) (vocOfLength 3) (vocOfLength 9)
    (goodDev 1 5) (goodDev 2 3) (goodDev 3 9) (by decide) (by decide) (by decide)
    (by decide) (by decide) (by decide)
  have e1 : blockLen (vocOfLength 5) = 5 := by decide
  have e3 : blockLen (vocOfLength 9) = 9 := by decide
  rw [e1, e3] at h
  exact h

/-! ## Teardown (C9) -/

/-- C9: `DSP_Stop` with no session open changes nothing and calls nothing; a
second `DSP_Stop` after a `DSP_Stop`, and a second `DSP_Uninit` after a
`DSP_Uninit`, change nothing and call nothing (no drop, no close, no free). -/
theorem C9_teardown_idempotent :
    (∀ s : State, s.s_dsp = none → DSP_Stop s = ⟨s, []⟩)
    ∧ (∀ s : State, DSP_Stop (DSP_Stop s).st = ⟨(DSP_Stop s).st, []⟩)
    ∧ (∀ s : State, DSP_Uninit (DSP_Uninit s).st = ⟨(DSP_Uninit s).st, []⟩) := by
  refine ⟨DSP_Stop_of_none, ?_, ?_⟩
  · intro s
    exact DSP_Stop_of_none _ (DSP_Stop_dsp s)
  · intro s
    have hi : (DSP_Uninit s).st.s_init = false := by
      unfold DSP_Uninit
      split_ifs with h
      · exact h
      · rfl
    unfold DSP_Uninit at hi ⊢
    rw [if_pos hi]

/-- C9 at a session opened by a `DSP_Play` on an initialised driver. -/
theorem C9_teardown_idempotent_witness :
    State.initial.s_dsp = none
    ∧ DSP_Stop State.initial = ⟨State.initial, []⟩
    ∧ DSP_Stop (DSP_Stop (DSP_Play (DSP_Init State.initial).1 sampleVoc (goodDev 7 10)).st).st
        = ⟨(DSP_Stop (DSP_Play (DSP_Init State.initial).1 sampleVoc (goodDev 7 10)).st).st, []⟩
    ∧ DSP_Uninit (DSP_Uninit (DSP_Play (DSP_Init State.initial).1 sampleVoc (goodDev 7 10)).st).st
        = ⟨(DSP_Uninit (DSP_Play (DSP_Init State.initial).1 sampleVoc (goodDev 7 10)).st).st, []⟩ :=
  ⟨rfl, C9_teardown_idempotent.1 State.initial rfl, C9_teardown_idempotent.2.1 _,
   C9_teardown_idempotent.2.2 _⟩


/-! ## Open handles along a list of calls -/

theorem openHandles_append (l₁ l₂ : List Call) :
    openHandles (l₁ ++ l₂) = l₂.foldl trackHandle (openHandles l₁) := by
  unfold openHandles
  rw [List.foldl_append]

theorem atMostOne_cons (live : List Nat) (c : Call) (cs : List Call) :
    atMostOne live (c :: cs) = (decide (live.length ≤ 1) && atMostOne (trackHandle live c) cs) :=
  rfl

theorem atMostOne_length (cs : List Call) :
    ∀ live : List Nat, atMostOne live cs = true → live.length ≤ 1 := by
  cases cs with
  | nil => intro live h; simpa [atMostOne] using h
  | cons c cs =>
    intro live h
    simp only [atMostOne, Bool.and_eq_true, decide_eq_true_eq] at h
    exact h.1

theorem atMostOne_append (l₁ : List Call) :
    ∀ (live : List Nat) (l₂ : List Call), atMostOne live l₁ = true →
      atMostOne (l₁.foldl trackHandle live) l₂ = true → atMostOne live (l₁ ++ l₂) = true := by
  induction l₁ with
  | nil => intro live l₂ _ h2; simpa using h2
  | cons c cs ih =>
    intro live l₂ h1 h2
    simp only [atMostOne, Bool.and_eq_true, decide_eq_true_eq] at h1
    simp only [List.cons_append, atMostOne, Bool.and_eq_true, decide_eq_true_eq]
    exact ⟨h1.1, ih _ _ h1.2 h2⟩

/-- The bound holds after every initial part of the calls. -/
theorem atMostOne_take (cs : List Call) :
    ∀ (live : List Nat) (n : Nat), atMostOne live cs = true →
      ((cs.take n).foldl trackHandle live).length ≤ 1 := by
  induction cs with
  | nil => intro live n h; simpa [atMostOne] using h
  | cons c cs ih =>
    intro live n h
    simp only [atMostOne, Bool.and_eq_true, decide_eq_true_eq] at h
    cases n with
    | zero => simpa using h.1
    | succ n => simpa using ih _ n h.2

/-- Calls that neither open nor close leave the open handles as they are. -/
theorem foldl_neutral (cs : List Call) (hn : ∀ c ∈ cs, ∀ live, trackHandle live c = live) :
    ∀ live : List Nat, cs.foldl trackHandle live = live := by
  induction cs with
  | nil => intro live; rfl
  | cons c cs ih =>
    intro live
    rw [List.foldl_cons, hn c (List.mem_cons_self _ _) live]
    exact ih (fun d hd => hn d (List.mem_cons_of_mem _ hd)) live

theorem atMostOne_neutral (cs : List Call) (hn : ∀ c ∈ cs, ∀ live, trackHandle live c = live) :
    ∀ live : List Nat, live.length ≤ 1 → atMostOne live cs = true := by
  induction cs with
  | nil => intro live h; simpa [atMostOne] using h
  | cons c cs ih =>
    intro live h
    simp only [atMostOne, Bool.and_eq_true, decide_eq_true_eq]
    refine ⟨h, ?_⟩
    rw [hn c (List.mem_cons_self _ _) live]
    exact ih (fun d hd => hn d (List.mem_cons_of_mem _ hd)) live h

theorem codecCalls_neutral (b : Mem) : ∀ c ∈ codecCalls b, ∀ live, trackHandle live c = live := by
  intro c hc live
  obtain ⟨k, rfl⟩ := mem_codecCalls b c hc
  rfl

/-- A `DSP_Stop` closes the handle that is held and ends with none open. -/
theorem DSP_Stop_handles (s : State) :
    (DSP_Stop s).calls.foldl trackHandle s.s_dsp.toList = []
    ∧ atMostOne s.s_dsp.toList (DSP_Stop s).calls = true := by
  cases hd : s.s_dsp with
  | none => rw [DSP_Stop_of_none s hd]; exact ⟨rfl, rfl⟩
  | some p =>
    rw [DSP_Stop_of_some s p hd]
    simp [trackHandle, atMostOne]

/-- What follows the `DSP_Stop` in a `DSP_Play` on a sound data block, started
with no handle open, ends with the handle the driver holds. -/
theorem DSP_Play_tail_handles (s : State) (b : Mem) (dev : PlayDev)
    (htype : rd b (READ_LE_UINT16 b 20) = 1) :
    ∃ tail, (DSP_Play s b dev).calls = (DSP_Stop s).calls ++ tail
      ∧ tail.foldl trackHandle [] = (DSP_Play s b dev).st.s_dsp.toList
      ∧ atMostOne [] tail = true := by
  have hc := codecCalls_neutral b
  have hp : ∀ c ∈ paramCalls b dev, ∀ live, trackHandle live c = live :=
    fun c h => (mem_paramCalls b dev c h).2.2.1
  have hs : ∀ c ∈ startCalls b dev, ∀ live, trackHandle live c = live :=
    fun c h => (mem_startCalls b dev c h).2.1
  rcases DSP_Play_cases dev with h1 | ⟨h1, h2⟩ | ⟨h1, h2⟩
  · refine ⟨_, DSP_Play_calls_openFail s b dev htype h1, ?_, ?_⟩
    · rw [DSP_Play_st_openFail s b dev htype h1, List.foldl_append, foldl_neutral _ hc]
      simp [trackHandle, h1]
    · refine atMostOne_append (codecCalls b) [] _ (atMostOne_neutral _ hc _ (by simp)) ?_
      rw [foldl_neutral _ hc]
      simp [atMostOne, trackHandle, h1]
  · refine ⟨_, DSP_Play_calls_commitFail s b dev htype h1 h2, ?_, ?_⟩
    · rw [DSP_Play_st_commitFail s b dev htype h1 h2, List.foldl_append, foldl_neutral _ hc,
        List.foldl_cons, List.foldl_append, foldl_neutral _ hp]
      simp [trackHandle, not_lt.mpr h1]
    · refine atMostOne_append (codecCalls b) [] _ (atMostOne_neutral _ hc _ (by simp)) ?_
      rw [foldl_neutral _ hc, atMostOne_cons, Bool.and_eq_true, decide_eq_true_eq]
      refine ⟨by simp, ?_⟩
      have e : trackHandle [] (Call.snd_pcm_open dev.open_ret dev.open_pcm) = [dev.open_pcm] := by
        simp [trackHandle, not_lt.mpr h1]
      rw [e]
      refine atMostOne_append (paramCalls b dev) [dev.open_pcm] _
        (atMostOne_neutral _ hp _ (by simp)) ?_
      rw [foldl_neutral _ hp]
      simp [atMostOne, trackHandle]
  · refine ⟨_, DSP_Play_calls_ok s b dev htype h1 h2, ?_, ?_⟩
    · rw [DSP_Play_st_ok s b dev htype h1 h2, List.foldl_append, foldl_neutral _ hc,
        List.foldl_cons, List.foldl_append, foldl_neutral _ hp, foldl_neutral _ hs]
      simp [trackHandle, not_lt.mpr h1]
    · refine atMostOne_append (codecCalls b) [] _ (atMostOne_neutral _ hc _ (by simp)) ?_
      rw [foldl_neutral _ hc, atMostOne_cons, Bool.and_eq_true, decide_eq_true_eq]
      refine ⟨by simp, ?_⟩
      have e : trackHandle [] (Call.snd_pcm_open dev.open_ret dev.open_pcm) = [dev.open_pcm] := by
        simp [trackHandle, not_lt.mpr h1]
      rw [e]
      refine atMostOne_append (paramCalls b dev) [dev.open_pcm] _
        (atMostOne_neutral _ hp _ (by simp)) ?_
      rw [foldl_neutral _ hp]
      exact atMostOne_neutral _ hs _ (by simp)

/-- The handles along one `DSP_Play`. -/
theorem DSP_Play_handles (s : State) (b : Mem) (dev : PlayDev) :
    (DSP_Play s b dev).calls.foldl trackHandle s.s_dsp.toList = (DSP_Play s b dev).st.s_dsp.toList
    ∧ atMostOne s.s_dsp.toList (DSP_Play s b dev).calls = true := by
  have hstop := DSP_Stop_handles s
  by_cases htype : rd b (READ_LE_UINT16 b 20) = 1
  · obtain ⟨tail, e, h1, h2⟩ := DSP_Play_tail_handles s b dev htype
    rw [e, List.foldl_append, hstop.1]
    refine ⟨h1, ?_⟩
    refine atMostOne_append (DSP_Stop s).calls _ tail hstop.2 ?_
    rw [hstop.1]
    exact h2
  · rw [DSP_Play_other s b dev htype, DSP_Stop_dsp]
    exact hstop


/-! ## Invariant of the runs -/

/-- The playing flag after a `DSP_Play` tells whether it succeeded. -/
theorem DSP_Play_playing (s : State) (b : Mem) (dev : PlayDev)
    (hinv : s.s_playing = true → s.s_dsp ≠ none) :
    (DSP_Play s b dev).st.s_playing = playSucceeds b dev := by
  have hstop := DSP_Stop_playing s hinv
  unfold playSucceeds
  by_cases htype : rd b (READ_LE_UINT16 b 20) = 1
  · rcases DSP_Play_cases dev with h1 | ⟨h1, h2⟩ | ⟨h1, h2⟩
    · rw [DSP_Play_st_openFail s b dev htype h1]
      simp [hstop, not_le.mpr h1]
    · rw [DSP_Play_st_commitFail s b dev htype h1 h2]
      simp [hstop, not_le.mpr h2]
    · rw [DSP_Play_st_ok s b dev htype h1 h2]
      simp [htype, h1, h2]
  · rw [DSP_Play_other s b dev htype, hstop]
    simp [htype]

/-- The handle after a `DSP_Play` is the one just opened, or none. -/
theorem DSP_Play_dsp (s : State) (b : Mem) (dev : PlayDev) :
    (DSP_Play s b dev).st.s_dsp = if playSucceeds b dev = true then some dev.open_pcm else none := by
  unfold playSucceeds
  by_cases htype : rd b (READ_LE_UINT16 b 20) = 1
  · rcases DSP_Play_cases dev with h1 | ⟨h1, h2⟩ | ⟨h1, h2⟩
    · rw [DSP_Play_st_openFail s b dev htype h1]
      simp [not_le.mpr h1]
    · rw [DSP_Play_st_commitFail s b dev htype h1 h2]
      simp [not_le.mpr h2]
    · rw [DSP_Play_st_ok s b dev htype h1 h2]
      simp [htype, h1, h2]
  · rw [DSP_Play_other s b dev htype, DSP_Stop_dsp]
    simp [htype]

theorem DSP_Play_bufferDone (s : State) (b : Mem) (dev : PlayDev)
    (hb : s.s_bufferDone < 4294967296) : (DSP_Play s b dev).st.s_bufferDone < 4294967296 := by
  by_cases htype : rd b (READ_LE_UINT16 b 20) = 1
  · rcases DSP_Play_cases dev with h1 | ⟨h1, h2⟩ | ⟨h1, h2⟩
    · rw [DSP_Play_st_openFail s b dev htype h1]
      dsimp only
      rw [DSP_Stop_bufferDone]; exact hb
    · rw [DSP_Play_st_commitFail s b dev htype h1 h2]
      dsimp only
      rw [DSP_Stop_bufferDone]; exact hb
    · rw [DSP_Play_st_ok s b dev htype h1 h2]
      dsimp only
      split_ifs
      · norm_num
      · exact toU32_lt _
  · rw [DSP_Play_other s b dev htype, DSP_Stop_bufferDone]
    exact hb

/-- The result of `DSP_GetStatus` when the playing flag is clear. -/
theorem DSP_GetStatus_idle (s : State) (dev : StatusDev) (h : s.s_playing = false) :
    DSP_GetStatus s dev = some ⟨s, [], 0⟩ := by
  unfold DSP_GetStatus
  rw [if_pos h]

/-- What `DSP_GetStatus` does: every result is the old state with the playing
flag kept and 2 returned, or with the flag cleared and 0 returned; the calls
are queries. -/
theorem DSP_GetStatus_some (s : State) (dev : StatusDev) (o : StatusOut)
    (h : DSP_GetStatus s dev = some o) :
    ((o.ret = 2 ∧ o.st = s ∧ s.s_playing = true) ∨ (o.ret = 0 ∧ o.st = { s with s_playing := false }))
    ∧ (∀ c ∈ o.calls, ∀ live, trackHandle live c = live) := by
  unfold DSP_GetStatus at h
  split_ifs at h <;> cases h <;> refine ⟨?_, by simp [trackHandle]⟩
  all_goals first
    | exact Or.inr ⟨rfl, rfl⟩
    | (refine Or.inl ⟨rfl, rfl, ?_⟩; simp_all)
    | (refine Or.inr ⟨rfl, ?_⟩; cases s; simp_all)

/-- When `DSP_GetStatus` returns 2. -/
theorem DSP_GetStatus_two (s : State) (dev : StatusDev) (hb : s.s_bufferDone < 4294967296) :
    (∃ o, DSP_GetStatus s dev = some o ∧ o.ret = 2) ↔
      (s.s_playing = true ∧ dev.state_ret = SND_PCM_STATE_RUNNING ∧
        ¬ (s.s_bufferDone ≠ 0 ∧ dev.avail_ret = (s.s_bufferDone : Int) - 1)) := by
  have e : s.s_bufferDone ≠ 0 → ((sub32 s.s_bufferDone 1 : Nat) : Int) = (s.s_bufferDone : Int) - 1 := by
    intro h0
    rw [sub32_of_le s.s_bufferDone 1 (by omega) hb]
    omega
  have e' : (s.s_bufferDone ≠ 0 ∧ dev.avail_ret = ((sub32 s.s_bufferDone 1 : Nat) : Int)) ↔
      (s.s_bufferDone ≠ 0 ∧ dev.avail_ret = (s.s_bufferDone : Int) - 1) := by
    constructor
    · rintro ⟨h0, h1⟩; exact ⟨h0, by rw [← e h0]; exact h1⟩
    · rintro ⟨h0, h1⟩; exact ⟨h0, by rw [e h0]; exact h1⟩
  rw [← e']
  unfold DSP_GetStatus
  split_ifs <;> simp_all

theorem DSP_Callback_facts (s : State) (dev : CallbackDev) :
    (DSP_Callback s dev).st.s_dsp = s.s_dsp ∧ (DSP_Callback s dev).st.s_playing = s.s_playing
    ∧ (DSP_Callback s dev).st.s_bufferDone = s.s_bufferDone
    ∧ (DSP_Callback s dev).st.s_dataLen = s.s_dataLen
    ∧ (∀ c ∈ (DSP_Callback s dev).calls, ∀ live, trackHandle live c = live) := by
  unfold DSP_Callback
  simp only []
  split_ifs <;> simp [trackHandle]

theorem DSP_Uninit_facts (s : State) (hinv : s.s_playing = true → s.s_dsp ≠ none) :
    (DSP_Uninit s).st.s_playing = (if s.s_init = true then false else s.s_playing)
    ∧ ((DSP_Uninit s).st.s_playing = true → (DSP_Uninit s).st.s_dsp ≠ none)
    ∧ (DSP_Uninit s).st.s_bufferDone = s.s_bufferDone
    ∧ (DSP_Uninit s).calls.foldl trackHandle s.s_dsp.toList = (DSP_Uninit s).st.s_dsp.toList
    ∧ atMostOne s.s_dsp.toList (DSP_Uninit s).calls = true := by
  unfold DSP_Uninit
  by_cases hi : s.s_init = false
  · rw [if_pos hi]
    refine ⟨by simp [hi], hinv, rfl, rfl, ?_⟩
    cases s.s_dsp <;> rfl
  · rw [if_neg hi]
    have hp := DSP_Stop_playing s hinv
    have hh := DSP_Stop_handles s
    have hd := DSP_Stop_dsp s
    have hf : ∀ c ∈ [Call.free], ∀ live, trackHandle live c = live := by
      intro c hc live
      simp only [List.mem_singleton] at hc
      subst hc; rfl
    refine ⟨?_, ?_, ?_, ?_, ?_⟩
    · simp [hi, hp]
    · simp [hp]
    · exact DSP_Stop_bufferDone s
    · dsimp only
      rw [List.foldl_append, hh.1, hd]
      rfl
    · dsimp only
      refine atMostOne_append (DSP_Stop s).calls _ _ hh.2 ?_
      rw [hh.1]
      rfl

theorem toList_length_le (o : Option Nat) : o.toList.length ≤ 1 := by
  cases o <;> simp

/-- Extending the record by the calls of one operation keeps the invariant. -/
theorem Inv_extend (y : Sys) (st : State) (calls : List Call) (hy : Inv y)
    (ha : st.s_playing = true → st.s_dsp ≠ none) (hb : st.s_bufferDone < 4294967296)
    (hc : calls.foldl trackHandle y.st.s_dsp.toList = st.s_dsp.toList)
    (hd : atMostOne y.st.s_dsp.toList calls = true) : Inv ⟨st, y.log ++ calls⟩ := by
  obtain ⟨_, _, h3, h4⟩ := hy
  refine ⟨ha, hb, ?_, ?_⟩
  · show openHandles (y.log ++ calls) = st.s_dsp.toList
    rw [openHandles_append, h3]
    exact hc
  · show atMostOne [] (y.log ++ calls) = true
    refine atMostOne_append y.log [] calls h4 ?_
    have : y.log.foldl trackHandle [] = openHandles y.log := rfl
    rw [this, h3]
    exact hd

theorem Inv_initial : Inv Sys.initial := by
  refine ⟨?_, ?_, rfl, rfl⟩
  · intro h; cases h
  · show (0 : Nat) < 4294967296
    norm_num

/-- Every operation keeps the invariant and moves the playing flag as the
session flag says. -/
theorem step_inv (y y' : Sys) (op : Op) (hy : Inv y) (hs : step y op = some y') :
    Inv y' ∧ y'.st.s_playing = sessionLiveStep y.st y.st.s_playing op := by
  have hy' := hy
  obtain ⟨h1, h2, h3, h4⟩ := hy'
  cases op with
  | init =>
    simp only [step, DSP_Init, Option.some.injEq] at hs
    subst hs
    exact ⟨⟨h1, h2, h3, h4⟩, rfl⟩
  | play data dev =>
    simp only [step, Option.some.injEq] at hs
    subst hs
    have hp := DSP_Play_playing y.st data dev h1
    have hd := DSP_Play_dsp y.st data dev
    have hh := DSP_Play_handles y.st data dev
    refine ⟨Inv_extend y _ _ hy ?_ (DSP_Play_bufferDone y.st data dev h2) hh.1 hh.2, hp⟩
    intro hpl
    rw [hp] at hpl
    rw [hd, if_pos hpl]
    simp
  | getStatus dev =>
    simp only [step] at hs
    cases hg : DSP_GetStatus y.st dev with
    | none => rw [hg] at hs; cases hs
    | some o =>
      rw [hg] at hs
      simp only [Option.some.injEq] at hs
      subst hs
      obtain ⟨hcase, hneutral⟩ := DSP_GetStatus_some y.st dev o hg
      have hz : statusIsZero y.st dev = decide (o.ret = 0) := by
        unfold statusIsZero; rw [hg]
      rcases hcase with ⟨hr, hst, hpl⟩ | ⟨hr, hst⟩
      · refine ⟨Inv_extend y _ _ hy ?_ ?_ ?_ ?_, ?_⟩
        · rw [hst]; exact h1
        · rw [hst]; exact h2
        · rw [foldl_neutral _ hneutral, hst]
        · exact atMostOne_neutral _ hneutral _ (toList_length_le _)
        · show o.st.s_playing = (y.st.s_playing && !statusIsZero y.st dev)
          rw [hz, hst, hpl, hr]; rfl
      · refine ⟨Inv_extend y _ _ hy ?_ ?_ ?_ ?_, ?_⟩
        · rw [hst]; intro h; cases h
        · rw [hst]; exact h2
        · rw [foldl_neutral _ hneutral, hst]
        · exact atMostOne_neutral _ hneutral _ (toList_length_le _)
        · show o.st.s_playing = (y.st.s_playing && !statusIsZero y.st dev)
          rw [hz, hst, hr]; simp
  | stop =>
    simp only [step, Option.some.injEq] at hs
    subst hs
    have hh := DSP_Stop_handles y.st
    have hp := DSP_Stop_playing y.st h1
    refine ⟨Inv_extend y _ _ hy ?_ ?_ ?_ hh.2, hp⟩
    · rw [hp]; intro h; cases h
    · rw [DSP_Stop_bufferDone]; exact h2
    · rw [hh.1, DSP_Stop_dsp]; rfl
  | uninit =>
    simp only [step, Option.some.injEq] at hs
    subst hs
    obtain ⟨f1, f2, f3, f4, f5⟩ := DSP_Uninit_facts y.st h1
    refine ⟨Inv_extend y _ _ hy f2 (by rw [f3]; exact h2) f4 f5, ?_⟩
    show (DSP_Uninit y.st).st.s_playing = if y.st.s_init = true then false else y.st.s_playing
    exact f1
  | callback dev =>
    simp only [step, Option.some.injEq] at hs
    subst hs
    obtain ⟨f1, f2, f3, _, f5⟩ := DSP_Callback_facts y.st dev
    refine ⟨Inv_extend y _ _ hy ?_ (by rw [f3]; exact h2) ?_ ?_, f2⟩
    · rw [f1, f2]; exact h1
    · rw [foldl_neutral _ f5, f1]
    · exact atMostOne_neutral _ f5 _ (toList_length_le _)

/-- Along a run that does not abort the invariant holds and the playing flag
is the session flag. -/
theorem run_inv (ops : List Op) :
    ∀ y y' : Sys, Inv y → run y ops = some y' →
      Inv y' ∧ y'.st.s_playing = sessionLive y y.st.s_playing ops := by
  induction ops with
  | nil =>
    intro y y' hy hr
    simp only [run, Option.some.injEq] at hr
    subst hr
    exact ⟨hy, rfl⟩
  | cons op ops ih =>
    intro y y' hy hr
    simp only [run] at hr
    cases hs : step y op with
    | none => rw [hs] at hr; cases hr
    | some y1 =>
      rw [hs] at hr
      obtain ⟨hi1, hl1⟩ := step_inv y y1 op hy hs
      obtain ⟨hi', hl'⟩ := ih y1 y' hi1 hr
      refine ⟨hi', ?_⟩
      rw [hl']
      simp only [sessionLive, hs]
      rw [hl1]

theorem Reachable_inv (y : Sys) (h : Reachable y) : Inv y := by
  obtain ⟨ops, hr⟩ := h
  exact (run_inv ops Sys.initial y Inv_initial hr).1


/-! ## Status (C2) -/

theorem run_append (l₁ : List Op) :
    ∀ (y : Sys) (l₂ : List Op),
      run y (l₁ ++ l₂) = match run y l₁ with
        | none => none
        | some y' => run y' l₂ := by
  induction l₁ with
  | nil => intro y l₂; rfl
  | cons op ops ih =>
    intro y l₂
    simp only [List.cons_append, run]
    cases step y op with
    | none => rfl
    | some y1 => exact ih y1 l₂

/-- Without a `DSP_Play` the session flag is never raised. -/
theorem sessionLive_no_play (ops : List Op) :
    ∀ y : Sys, (∀ op ∈ ops, op.isPlay = false) → sessionLive y false ops = false := by
  induction ops with
  | nil => intro y _; rfl
  | cons op ops ih =>
    intro y h
    simp only [sessionLive]
    cases hs : step y op with
    | none => rfl
    | some y1 =>
      have hop : op.isPlay = false := h op (List.mem_cons_self _ _)
      have e : sessionLiveStep y.st false op = false := by
        cases op with
        | play data dev => cases hop
        | uninit => simp [sessionLiveStep]
        | _ => rfl
      simp only [e]
      exact ih y1 (fun o ho => h o (List.mem_cons_of_mem _ ho))

/-- C2, as stated, fails: after a `DSP_Play` that succeeds on a driver that
was never initialised, `DSP_Uninit` returns at once, and with the device
running `DSP_GetStatus` still returns 2 although a `DSP_Uninit` has happened
since the `DSP_Play`. -/
theorem C2_counterexample :
    specLive Sys.initial false uninitOps = false
    ∧ (match run Sys.initial uninitOps with
        | none => none
        | some y => (DSP_GetStatus y.st ⟨SND_PCM_STATE_RUNNING, 0⟩).map (fun o => o.ret)) = some 2 := by
  decide

/-- C2, amended: in every state reached from the initial one, `DSP_GetStatus`
returns 2 exactly when the most recent `DSP_Play` succeeded, no `DSP_Stop`,
no `DSP_Uninit` of an initialised driver and no 0-returning `DSP_GetStatus`
has happened since, the device reports the running state and it is not the
case that the watermark is non-zero and the available count is the watermark
less 1; a `DSP_GetStatus` that returns, returns 2 or 0; with no session live
it returns 0 and changes nothing, in particular before any `DSP_Play` and
right after a `DSP_Stop`. -/
theorem C2_status (ops : List Op) (y : Sys) (dev : StatusDev)
    (hrun : run Sys.initial ops = some y) :
    ((∃ o, DSP_GetStatus y.st dev = some o ∧ o.ret = 2) ↔
      (sessionLive Sys.initial false ops = true ∧ dev.state_ret = SND_PCM_STATE_RUNNING ∧
        ¬ (y.st.s_bufferDone ≠ 0 ∧ dev.avail_ret = (y.st.s_bufferDone : Int) - 1)))
    ∧ (∀ o, DSP_GetStatus y.st dev = some o → o.ret = 2 ∨ o.ret = 0)
    ∧ (sessionLive Sys.initial false ops = false → DSP_GetStatus y.st dev = some ⟨y.st, [], 0⟩)
    ∧ ((∀ op ∈ ops, op.isPlay = false) → DSP_GetStatus y.st dev = some ⟨y.st, [], 0⟩)
    ∧ (∀ pre, ops = pre ++ [Op.stop] → DSP_GetStatus y.st dev = some ⟨y.st, [], 0⟩) := by
  obtain ⟨hinv, hlive⟩ := run_inv ops Sys.initial y Inv_initial hrun
  have hlive' : y.st.s_playing = sessionLive Sys.initial false ops := hlive
  refine ⟨?_, ?_, ?_, ?_, ?_⟩
  · rw [DSP_GetStatus_two y.st dev hinv.2.1, hlive']
  · intro o ho
    rcases (DSP_GetStatus_some y.st dev o ho).1 with h | h
    · exact Or.inl h.1
    · exact Or.inr h.1
  · intro h
    exact DSP_GetStatus_idle y.st dev (by rw [hlive', h])
  · intro h
    exact DSP_GetStatus_idle y.st dev (by rw [hlive', sessionLive_no_play ops _ h])
  · intro pre hpre
    rw [hpre, run_append] at hrun
    cases hp : run Sys.initial pre with
    | none => rw [hp] at hrun; cases hrun
    | some y1 =>
      rw [hp] at hrun
      simp only [run, step, Option.some.injEq] at hrun
      have hi1 := (run_inv pre Sys.initial y1 Inv_initial hp).1
      have := DSP_Stop_playing y1.st hi1.1
      apply DSP_GetStatus_idle
      rw [← hrun]
      exact this

/-- C2 amended, at the sample run and a running device: the status is 2. -/
theorem C2_status_witness :
    run Sys.initial sampleOps = some sampleSys
    ∧ ((∃ o, DSP_GetStatus sampleSys.st ⟨3, 0⟩ = some o ∧ o.ret = 2) ↔
        (sessionLive Sys.initial false sampleOps = true
          ∧ (⟨3, 0⟩ : StatusDev).state_ret = SND_PCM_STATE_RUNNING
          ∧ ¬ (sampleSys.st.s_bufferDone ≠ 0
              ∧ (⟨3, 0⟩ : StatusDev).avail_ret = (sampleSys.st.s_bufferDone : Int) - 1))) :=
  ⟨by decide, (C2_status sampleOps sampleSys ⟨3, 0⟩ (by decide)).1⟩

/-! ## One session at a time (C3) -/

/-- C3: in every state reached from the initial one, and after every initial
part of the calls made so far, at most one device handle is opened and not
yet closed; the open handle is the one the driver holds; and a `DSP_Play`
made while a handle is held starts by dropping and closing that handle,
playing flag set or not. -/
theorem C3_one_session (y : Sys) (hreach : Reachable y) :
    (∀ n, (openHandles (y.log.take n)).length ≤ 1)
    ∧ (openHandles y.log).length ≤ 1
    ∧ openHandles y.log = y.st.s_dsp.toList
    ∧ (∀ (b : Mem) (dev : PlayDev) (p : Nat), y.st.s_dsp = some p →
        (DSP_Play y.st b dev).calls.take 2
          = [Call.snd_pcm_drop (some p), Call.snd_pcm_close (some p)]) := by
  obtain ⟨_, _, h3, h4⟩ := Reachable_inv y hreach
  refine ⟨fun n => atMostOne_take y.log [] n h4, ?_, h3, ?_⟩
  · rw [h3]; exact toList_length_le _
  · intro b dev p hp
    have hstop : (DSP_Stop y.st).calls = [Call.snd_pcm_drop (some p), Call.snd_pcm_close (some p)] := by
      rw [DSP_Stop_of_some y.st p hp]
    by_cases htype : rd b (READ_LE_UINT16 b 20) = 1
    · obtain ⟨tail, e, _, _⟩ := DSP_Play_tail_handles y.st b dev htype
      rw [e, hstop]
      rfl
    · rw [DSP_Play_other y.st b dev htype, hstop]
      rfl

/-- C3 at the sample run, in which a second `DSP_Play` takes over from the first. -/
theorem C3_one_session_witness :
    Reachable sampleSys
    ∧ (∀ n, (openHandles (sampleSys.log.take n)).length ≤ 1)
    ∧ openHandles sampleSys.log = [9] :=
  ⟨⟨sampleOps, by decide⟩,
   (C3_one_session sampleSys ⟨sampleOps, by decide⟩).1,
   (C3_one_session sampleSys ⟨sampleOps, by decide⟩).2.2.1⟩

/-! ## Failure to open or to configure the device (C5) -/

/-- C5: on a sound data block played in a reachable state, if `snd_pcm_open`
fails or `snd_pcm_hw_params` fails, `DSP_Play` ends with no handle held and
none open, the playing flag clear, no write attempted, and every following
`DSP_GetStatus` returns 0; on the commit failure the last call closes the
handle just opened; and whatever `snd_pcm_hw_params_any`,
`snd_pcm_hw_params_set_channels` and `snd_pcm_hw_params_set_rate` return, the
call goes on to the first write and sets the playing flag once the open and
the commit succeed. -/
theorem C5_device_failure (y : Sys) (b : Mem) (dev : PlayDev) (hreach : Reachable y)
    (htype : rd b (READ_LE_UINT16 b 20) = 1) :
    ((dev.open_ret < 0 ∨ dev.params_ret < 0) →
        (DSP_Play y.st b dev).st.s_dsp = none
        ∧ (DSP_Play y.st b dev).st.s_playing = false
        ∧ (∀ c ∈ (DSP_Play y.st b dev).calls, c.isWrite = false)
        ∧ openHandles (y.log ++ (DSP_Play y.st b dev).calls) = []
        ∧ (∀ d, DSP_GetStatus (DSP_Play y.st b dev).st d = some ⟨(DSP_Play y.st b dev).st, [], 0⟩))
    ∧ (0 ≤ dev.open_ret → dev.params_ret < 0 →
        (DSP_Play y.st b dev).calls.getLast? = some (Call.snd_pcm_close (some dev.open_pcm)))
    ∧ (0 ≤ dev.open_ret → 0 ≤ dev.params_ret →
        (DSP_Play y.st b dev).st.s_dsp = some dev.open_pcm
        ∧ (DSP_Play y.st b dev).st.s_playing = true
        ∧ Call.snd_pcm_writei (some dev.open_pcm) 0 (blockLen b) ∈ (DSP_Play y.st b dev).calls) := by
  have hinv := Reachable_inv y hreach
  have hpl := DSP_Play_playing y.st b dev hinv.1
  have hdsp := DSP_Play_dsp y.st b dev
  have hstopw : ∀ c ∈ (DSP_Stop y.st).calls, c.isWrite = false := by
    intro c hc
    rcases mem_DSP_Stop_calls y.st c hc with h | h <;> rw [h] <;> rfl
  have hcodw : ∀ c ∈ codecCalls b, c.isWrite = false := by
    intro c hc
    obtain ⟨k, rfl⟩ := mem_codecCalls b c hc
    rfl
  refine ⟨?_, ?_, ?_⟩
  · intro hfail
    have hps : playSucceeds b dev = false := by
      unfold playSucceeds
      rcases hfail with h | h
      · simp [not_le.mpr h]
      · simp [not_le.mpr h]
    have hp0 : (DSP_Play y.st b dev).st.s_playing = false := by rw [hpl, hps]
    have hd0 : (DSP_Play y.st b dev).st.s_dsp = none := by rw [hdsp, hps]; rfl
    refine ⟨hd0, hp0, ?_, ?_, fun d => DSP_GetStatus_idle _ d hp0⟩
    · intro c hc
      by_cases hopen : dev.open_ret < 0
      · rw [DSP_Play_calls_openFail y.st b dev htype hopen] at hc
        simp only [List.mem_append, List.mem_cons, List.mem_singleton, List.not_mem_nil,
          or_false] at hc
        rcases hc with hc | hc | hc | hc
        · exact hstopw c hc
        · exact hcodw c hc
        · rw [hc]; rfl
        · rw [hc]; rfl
      · have hpar : dev.params_ret < 0 := by
          rcases hfail with h | h
          · exact absurd h hopen
          · exact h
        rw [DSP_Play_calls_commitFail y.st b dev htype (not_lt.mp hopen) hpar] at hc
        simp only [List.mem_append, List.mem_cons, List.mem_singleton, List.not_mem_nil,
          or_false] at hc
        rcases hc with hc | hc | hc | hc | hc | hc
        · exact hstopw c hc
        · exact hcodw c hc
        · rw [hc]; rfl
        · exact (mem_paramCalls b dev c hc).1
        · rw [hc]; rfl
        · rw [hc]; rfl
    · have hh := DSP_Play_handles y.st b dev
      rw [openHandles_append, hinv.2.2.1, hh.1, hd0]
      rfl
  · intro hopen hpar
    rw [DSP_Play_calls_commitFail y.st b dev htype hopen hpar]
    have e : ∀ (l : List Call) (x z : Call), (l ++ [x, z]).getLast? = some z := by
      intro l x z
      rw [show l ++ [x, z] = (l ++ [x]) ++ [z] by simp]
      exact List.getLast?_concat _
    rw [← List.cons_append, ← List.append_assoc, ← List.append_assoc]
    exact e _ _ _
  · intro hopen hpar
    have hps : playSucceeds b dev = true := by
      unfold playSucceeds
      simp [htype, hopen, hpar]
    refine ⟨by rw [hdsp, if_pos hps], by rw [hpl, hps], ?_⟩
    rw [DSP_Play_calls_ok y.st b dev htype hopen hpar]
    simp only [List.mem_append, List.mem_cons]
    exact Or.inr (Or.inr (Or.inr (Or.inr (writei_mem_startCalls b dev))))

/-- C5 at the sample file played on a device that cannot be opened, over the
open session of the sample run. -/
theorem C5_device_failure_witness :
    Reachable sampleSys ∧ rd sampleVoc (READ_LE_UINT16 sampleVoc 20) = 1
    ∧ (deadDev.open_ret < 0 ∨ deadDev.params_ret < 0)
    ∧ (DSP_Play sampleSys.st sampleVoc deadDev).st.s_dsp = none
    ∧ (DSP_Play sampleSys.st sampleVoc deadDev).st.s_playing = false
    ∧ (∀ c ∈ (DSP_Play sampleSys.st sampleVoc deadDev).calls, c.isWrite = false)
    ∧ openHandles (sampleSys.log ++ (DSP_Play sampleSys.st sampleVoc deadDev).calls) = []
    ∧ (∀ d, DSP_GetStatus (DSP_Play sampleSys.st sampleVoc deadDev).st d
        = some ⟨(DSP_Play sampleSys.st sampleVoc deadDev).st, [], 0⟩) :=
  ⟨⟨sampleOps, by decide⟩, by decide, by decide,
   (C5_device_failure sampleSys sampleVoc deadDev ⟨sampleOps, by decide⟩ (by decide)).1
     (by decide)⟩


/-! ## The stream cursor (C6, C7) -/

/-- What `DSP_Callback` does to the cursor: with the driver playing it moves
the cursor forward, and the remaining count down, by the smaller of the
available space (as a `uint32`) and the remaining count; otherwise nothing. -/
theorem DSP_Callback_feed (s : State) (dev : CallbackDev) (hlen : s.s_bufferLen < 4294967296) :
    (s.s_playing = true →
        (DSP_Callback s dev).st.s_buffer = s.s_buffer + min (toU32 dev.avail_update_ret) s.s_bufferLen
        ∧ (DSP_Callback s dev).st.s_bufferLen
            = s.s_bufferLen - min (toU32 dev.avail_update_ret) s.s_bufferLen)
    ∧ (s.s_playing = false ∨ toU32 dev.avail_update_ret = 0 ∨ s.s_bufferLen = 0 →
        (DSP_Callback s dev).st = s) := by
  unfold DSP_Callback
  simp only []
  refine ⟨?_, ?_⟩
  · intro hp
    rw [if_neg (by simp [hp])]
    split_ifs with h1 h2 h3
    · simp [h1]
    · simp only [h3, Nat.min_zero, Nat.add_zero, Nat.sub_zero, and_self]
    · refine ⟨by rw [Nat.min_eq_right (le_of_lt h2)], ?_⟩
      rw [Nat.min_eq_right (le_of_lt h2)]
      show sub32 s.s_bufferLen s.s_bufferLen = _
      rw [sub32_of_le _ _ (le_refl _) hlen]
    · have hle : toU32 dev.avail_update_ret ≤ s.s_bufferLen := not_lt.mp h2
      refine ⟨by rw [Nat.min_eq_left hle], ?_⟩
      rw [Nat.min_eq_left hle]
      show sub32 s.s_bufferLen (toU32 dev.avail_update_ret) = _
      rw [sub32_of_le _ _ hle hlen]
  · intro h
    split_ifs
    all_goals first
      | rfl
      | (exfalso; rcases h with h | h | h <;> simp_all)

/-- What the first write of `DSP_Play` does when the device reports a count
between 0 and the payload length. -/
theorem DSP_Play_first_write (s : State) (b : Mem) (dev : PlayDev)
    (htype : rd b (READ_LE_UINT16 b 20) = 1) (hopen : 0 ≤ dev.open_ret)
    (hpar : 0 ≤ dev.params_ret) (w : Nat) (hw : dev.writei_ret = (w : Int))
    (hle : w ≤ blockLen b) :
    (DSP_Play s b dev).st.s_buffer = w ∧ (DSP_Play s b dev).st.s_bufferLen = blockLen b - w := by
  have hb := blockLen_lt b
  have e : toU32 dev.writei_ret = w := by
    have := toU32_of_range dev.writei_ret (by omega) (by omega)
    omega
  rw [DSP_Play_st_ok s b dev htype hopen hpar]
  dsimp only
  rw [e, sub32_of_le _ _ hle hb]
  exact ⟨Nat.zero_add w, rfl⟩

/-- C6 fails in the code: `snd_pcm_writei` answers the first write of the ten
samples of the sample file with `-11`.  The remaining count goes from 10 to
21 and the cursor to offset 4294967285. -/
theorem C6_first_write_error :
    blockLen sampleVoc = 10
    ∧ (DSP_Play State.initial sampleVoc (goodDev 7 (0 - 11))).st.s_playing = true
    ∧ (DSP_Play State.initial sampleVoc (goodDev 7 (0 - 11))).st.s_bufferLen = 21
    ∧ (DSP_Play State.initial sampleVoc (goodDev 7 (0 - 11))).st.s_buffer = 4294967285
    ∧ ¬ ((DSP_Play State.initial sampleVoc (goodDev 7 (0 - 11))).st.s_buffer
          + (DSP_Play State.initial sampleVoc (goodDev 7 (0 - 11))).st.s_bufferLen = 10) := by
  decide

/-- C7 fails in the code: the first write takes 4 of the ten samples of the
sample file; a `DSP_GetStatus` that finds the device not running, or, on a
device without asynchronous handlers, finds the available count at the
watermark less 1, reaches its `assert` with 6 samples unwritten. -/
theorem C7_assert_reached :
    (DSP_Play State.initial sampleVoc (goodDev 7 4)).st.s_bufferLen = 6
    ∧ DSP_GetStatus (DSP_Play State.initial sampleVoc (goodDev 7 4)).st ⟨4, 0⟩ = none
    ∧ (DSP_Play State.initial sampleVoc (pollDev 7 4)).st.s_bufferLen = 6
    ∧ (DSP_Play State.initial sampleVoc (pollDev 7 4)).st.s_bufferDone = 64
    ∧ DSP_GetStatus (DSP_Play State.initial sampleVoc (pollDev 7 4)).st
        ⟨SND_PCM_STATE_RUNNING, 63⟩ = none := by
  decide

end Dsp

end OpenDUNE

/-! # Properties of the GUI text queue -/

namespace OpenDUNE

namespace Gui

theorem tolower_ne_zero (c : Nat) (h : c ≠ 0) : tolower c ≠ 0 := by
  unfold tolower
  split_ifs <;> omega

/-- On C strings `strcasecmp` returns 0 exactly for texts equal up to case. -/
theorem strcasecmp_eq_zero_iff (a : List Nat) :
    ∀ b : List Nat, IsCStr a → IsCStr b → (strcasecmp a b = 0 ↔ eqIgnoreCase a b) := by
  induction a with
  | nil =>
    intro b _ hb
    cases b with
    | nil => simp [strcasecmp, eqIgnoreCase]
    | cons y ys =>
      have hy : tolower y ≠ 0 := tolower_ne_zero y (hb y (List.mem_cons_self _ _))
      simp only [strcasecmp, eqIgnoreCase, List.map_nil, List.map_cons]
      constructor
      · intro h; omega
      · intro h; cases h
  | cons x xs ih =>
    intro b ha hb
    cases b with
    | nil =>
      have hx : tolower x ≠ 0 := tolower_ne_zero x (ha x (List.mem_cons_self _ _))
      simp only [strcasecmp, eqIgnoreCase, List.map_nil, List.map_cons]
      constructor
      · intro h; omega
      · intro h; cases h
    | cons y ys =>
      have ha' : IsCStr xs := fun c hc => ha c (List.mem_cons_of_mem _ hc)
      have hb' : IsCStr ys := fun c hc => hb c (List.mem_cons_of_mem _ hc)
      simp only [strcasecmp, eqIgnoreCase, List.map_cons, List.cons.injEq]
      split_ifs with h
      · rw [ih ys ha' hb']
        simp [eqIgnoreCase, h]
      · constructor
        · intro h'; exfalso; omega
        · intro h'; exact absurd h'.1 h

theorem vsnprintf_isCStr (size : Nat) (out : List Nat) : IsCStr (vsnprintf size out) := by
  intro c hc
  unfold vsnprintf at hc
  have := List.mem_takeWhile_imp (List.mem_of_mem_take hc)
  simpa using this

/-- C10: with no scroll in progress (`variable_373A = 0`), a priority `arg0A`
other than `0xFFFF` and `0xFFFE` and a non-empty formatted message `m`:
if `m` equals one of the three texts up to case the texts and priorities stay
as they are; otherwise, as signed 16-bit values, if `arg0A ≥ variable_3736` the
text and priority of `variable_3694` move to `variable_36E4` / `variable_3738`
and `m` / `arg0A` take `variable_3694` / `variable_3736`; else if
`arg0A ≥ variable_3738` only `variable_36E4` / `variable_3738` become `m` /
`arg0A`; else nothing in the queue changes. -/
theorem C10_queue (emu : Emu) (g : Global) (out : List Nat) (arg0A : Nat)
    (h373A : g.variable_373A = 0) (ha : arg0A < 65536)
    (hF : arg0A ≠ 0xFFFF) (hE : arg0A ≠ 0xFFFE) (hm : vsnprintf 80 out ≠ [])
    (h1 : IsCStr g.variable_3644) (h2 : IsCStr g.variable_3694) (h3 : IsCStr g.variable_36E4) :
    ∃ g', GUI_DisplayText emu g (some out) arg0A = some g'
      ∧ ((eqIgnoreCase (vsnprintf 80 out) g.variable_3644
            ∨ eqIgnoreCase (vsnprintf 80 out) g.variable_3694
            ∨ eqIgnoreCase (vsnprintf 80 out) g.variable_36E4) → g'.queue = g.queue)
      ∧ (¬ (eqIgnoreCase (vsnprintf 80 out) g.variable_3644
            ∨ eqIgnoreCase (vsnprintf 80 out) g.variable_3694
            ∨ eqIgnoreCase (vsnprintf 80 out) g.variable_36E4) →
          (toI16 arg0A ≥ toI16 g.variable_3736 →
            g'.queue = (g.variable_3644, vsnprintf 80 out, g.variable_3694,
                        g.variable_3734, arg0A, g.variable_3736))
          ∧ (toI16 arg0A < toI16 g.variable_3736 → toI16 arg0A ≥ toI16 g.variable_3738 →
            g'.queue = (g.variable_3644, g.variable_3694, vsnprintf 80 out,
                        g.variable_3734, g.variable_3736, arg0A))
          ∧ (toI16 arg0A < toI16 g.variable_3736 → toI16 arg0A < toI16 g.variable_3738 →
            g'.queue = g.queue)) := by
  have hmc := vsnprintf_isCStr 80 out
  have e1 := strcasecmp_eq_zero_iff (vsnprintf 80 out) g.variable_3644 hmc h1
  have e2 := strcasecmp_eq_zero_iff (vsnprintf 80 out) g.variable_3694 hmc h2
  have e3 := strcasecmp_eq_zero_iff (vsnprintf 80 out) g.variable_36E4 hmc h3
  have hmod : arg0A % 65536 = arg0A := Nat.mod_eq_of_lt ha
  have key : ∃ g', GUI_DisplayText emu g (some out) arg0A = some g' ∧ g'.queue =
      if (eqIgnoreCase (vsnprintf 80 out) g.variable_3644
            ∨ eqIgnoreCase (vsnprintf 80 out) g.variable_3694
            ∨ eqIgnoreCase (vsnprintf 80 out) g.variable_36E4) then g.queue
      else if toI16 arg0A ≥ toI16 g.variable_3736 then
        (g.variable_3644, vsnprintf 80 out, g.variable_3694, g.variable_3734, arg0A, g.variable_3736)
      else if toI16 arg0A ≥ toI16 g.variable_3738 then
        (g.variable_3644, g.variable_3694, vsnprintf 80 out, g.variable_3734, g.variable_3736, arg0A)
      else g.queue := by
    unfold GUI_DisplayText
    simp only [hmod, hF, hE, h373A, hm, ne_eq, not_true_eq_false, not_false_eq_true, if_false,
      if_true, e1, e2, e3]
    by_cases d1 : eqIgnoreCase (vsnprintf 80 out) g.variable_3644
    · rw [if_neg (fun h => h.1 d1), if_pos (Or.inl d1)]
      dsimp only
      split_ifs <;> exact ⟨_, rfl, rfl⟩
    by_cases d2 : eqIgnoreCase (vsnprintf 80 out) g.variable_3694
    · rw [if_neg (fun h => h.2.1 d2), if_pos (Or.inr (Or.inl d2))]
      dsimp only
      split_ifs <;> exact ⟨_, rfl, rfl⟩
    by_cases d3 : eqIgnoreCase (vsnprintf 80 out) g.variable_36E4
    · rw [if_neg (fun h => h.2.2 d3), if_pos (Or.inr (Or.inr d3))]
      dsimp only
      split_ifs <;> exact ⟨_, rfl, rfl⟩
    rw [if_pos ⟨d1, d2, d3⟩, if_neg (fun h => Or.elim h d1 (fun h => Or.elim h d2 d3))]
    by_cases p1 : toI16 arg0A ≥ toI16 g.variable_3736
    · rw [if_pos p1, if_pos p1]
      dsimp only
      split_ifs <;> exact ⟨_, rfl, rfl⟩
    · rw [if_neg p1, if_neg p1]
      by_cases p2 : toI16 arg0A ≥ toI16 g.variable_3738
      · rw [if_pos p2, if_pos p2]
        dsimp only
        split_ifs <;> exact ⟨_, rfl, rfl⟩
      · rw [if_neg p2, if_neg p2]
        dsimp only
        split_ifs <;> exact ⟨_, rfl, rfl⟩
  obtain ⟨g', hg, hq⟩ := key
  refine ⟨g', hg, ?_, ?_⟩
  · intro hdup
    rw [hq, if_pos hdup]
  · intro hdup
    rw [if_neg hdup] at hq
    refine ⟨?_, ?_, ?_⟩
    · intro p1
      rw [hq, if_pos p1]
    · intro p1 p2
      rw [hq, if_neg (not_le.mpr p1), if_pos p2]
    · intro p1 p2
      rw [hq, if_neg (not_le.mpr p1), if_neg (not_le.mpr p2)]

/-- C10 on an empty queue: the message enters `variable_3694` with its priority. -/
theorem C10_queue_witness :
    (emptyGlobal.variable_373A = 0 ∧ 3 < 65536 ∧ 3 ≠ 0xFFFF ∧ 3 ≠ 0xFFFE
      ∧ vsnprintf 80 [72, 105] ≠ [])
    ∧ ∃ g', GUI_DisplayText idleEmu emptyGlobal (some [72, 105]) 3 = some g'
      ∧ g'.queue = ([], [72, 105], [], 0xFFFF, 3, 0xFFFF) := by
  refine ⟨by decide, ?_⟩
  obtain ⟨g', hg, _, hq⟩ := C10_queue idleEmu emptyGlobal [72, 105] 3 rfl (by decide) (by decide)
    (by decide) (by decide) (by intro c hc; cases hc) (by intro c hc; cases hc)
    (by intro c hc; cases hc)
  exact ⟨g', hg, (hq (by decide)).1 (by decide)⟩

end Gui

end OpenDUNE
